import Mathlib

/-!
Shallow embedding of the risk-scoring, language-detection, caching and
finding-normalization logic of the nmcbackend repository
(src/services/openaiClient.js, src/services/auditService.js,
src/services/contentAuditService.js, src/controllers/contentAuditController.js).

JavaScript strings are modelled as Lean `String` values; most primitives are
implemented over `List Char` (`String.data`) with structural recursion so that
every definition computes inside the kernel.  `toLowerCase`/`toUpperCase` are
modelled on the ASCII range (the only cased characters these services handle);
absent/undefined string fields are modelled as the empty string, matching the
pervasive `(x || '')` coercions in the source.
-/

set_option maxRecDepth 100000
set_option maxHeartbeats 4000000

/-- The apostrophe character (U+0027), named to avoid quote-escape noise. -/
def squote : Char := Char.ofNat 39

/-- The backtick character (U+0060). -/
def backquote : Char := Char.ofNat 96

/-- JavaScript `\s` whitespace class (the code points relevant to this code base). -/
def isJsWs (c : Char) : Bool :=
  c == ' ' || c == '\t' || c == '\n' || c == '\r' || c == '\x0b' || c == '\x0c' ||
  c.toNat = 0xA0 || c.toNat = 0x1680 ||
  (0x2000 ≤ c.toNat && c.toNat ≤ 0x200A) ||
  c.toNat = 0x2028 || c.toNat = 0x2029 || c.toNat = 0x202F || c.toNat = 0x205F ||
  c.toNat = 0x3000 || c.toNat = 0xFEFF

/-- ASCII lower-casing of a character (model of the effect of `toLowerCase`). -/
def lowerChar (c : Char) : Char :=
  if 65 ≤ c.toNat && c.toNat ≤ 90 then Char.ofNat (c.toNat + 32) else c

/-- ASCII upper-casing of a character (model of the effect of `toUpperCase`). -/
def upperChar (c : Char) : Char :=
  if 97 ≤ c.toNat && c.toNat ≤ 122 then Char.ofNat (c.toNat - 32) else c

/-- Lower-case every character of a character list. -/
def lowerCl (l : List Char) : List Char := l.map lowerChar

/-- Upper-case every character of a character list. -/
def upperCl (l : List Char) : List Char := l.map upperChar

/-- Strip leading and trailing JavaScript whitespace (model of `String.prototype.trim`). -/
def trimCl (l : List Char) : List Char :=
  ((l.dropWhile isJsWs).reverse.dropWhile isJsWs).reverse

/-- Auxiliary for `collapseWs`: the flag records whether the previous character
was part of a whitespace run that has already emitted its single space. -/
def collapseWsAux : Bool → List Char → List Char
  | _, [] => []
  | prevWs, c :: rest =>
    if isJsWs c then
      if prevWs then collapseWsAux true rest
      else ' ' :: collapseWsAux true rest
    else c :: collapseWsAux false rest

/-- Model of `.replace(/\s+/g, ' ')` (also of `/[\s\t\n\r]+/g`): every maximal
whitespace run becomes a single space. -/
def collapseWs (l : List Char) : List Char := collapseWsAux false l

/-- Is `pat` a prefix of `l`? -/
def isPrefixCl : List Char → List Char → Bool
  | [], _ => true
  | _ :: _, [] => false
  | a :: as, b :: bs => a == b && isPrefixCl as bs

/-- Model of `String.prototype.includes`: does `pat` occur inside `hay`? -/
def containsCl : List Char → List Char → Bool
  | [], pat => pat.isEmpty
  | hay@(_ :: rest), pat => isPrefixCl pat hay || containsCl rest pat

/-- Split on a single separator character (model of `split(sep)` for a
one-character separator: no run collapsing, empty pieces kept). -/
def splitOnChar (sep : Char) : List Char → List (List Char)
  | [] => [[]]
  | c :: rest =>
    let r := splitOnChar sep rest
    if c == sep then [] :: r
    else (c :: r.headD []) :: r.tail

/-- Model of `split(/\r?\n/)`. -/
def splitLinesCl : List Char → List (List Char)
  | [] => [[]]
  | '\r' :: '\n' :: rest => [] :: splitLinesCl rest
  | '\n' :: rest => [] :: splitLinesCl rest
  | c :: rest =>
    let r := splitLinesCl rest
    (c :: r.headD []) :: r.tail

/-- Auxiliary for `splitAfterEnders`: when `inSep` holds we are inside the
whitespace run that forms the current separator. `acc` holds the current
segment reversed, so its head is the most recently read character, which is
what the look-behind `(?<=[...])` inspects. -/
def splitAfterEndersAux (enders : List Char) : Bool → List Char → List Char → List (List Char)
  | _, acc, [] => [acc.reverse]
  | true, acc, c :: rest =>
    if isJsWs c then splitAfterEndersAux enders true acc rest
    else splitAfterEndersAux enders false [c] rest
  | false, acc, c :: rest =>
    if isJsWs c && (match acc with | p :: _ => enders.contains p | [] => false) then
      acc.reverse :: splitAfterEndersAux enders true [] rest
    else splitAfterEndersAux enders false (c :: acc) rest

/-- Model of `split(/(?<=[E])\s+/)` for an ender class `E`: split at every
maximal whitespace run whose preceding character belongs to `E`. -/
def splitAfterEnders (enders : List Char) (l : List Char) : List (List Char) :=
  splitAfterEndersAux enders false [] l

/-- JavaScript `\w` word character (ASCII letters, digits, underscore). -/
def isWordChar (c : Char) : Bool :=
  (65 ≤ c.toNat && c.toNat ≤ 90) || (97 ≤ c.toNat && c.toNat ≤ 122) ||
  (48 ≤ c.toNat && c.toNat ≤ 57) || c == '_'

/-- Word-character status of an optional character; `none` (string edge) counts
as a non-word position, exactly as in JavaScript `\b`. -/
def isWordCharOpt : Option Char → Bool
  | some c => isWordChar c
  | none => false

/-- Does `pat` match at the head of `l`, with a `\b` boundary on both sides?
`prev` is the character immediately before this position. -/
def wordPatHere (pat : List Char) (prev : Option Char) (l : List Char) : Bool :=
  isPrefixCl pat l &&
  (isWordCharOpt prev != isWordCharOpt pat.head?) &&
  (isWordCharOpt (pat.getLast?) != isWordCharOpt (l.drop pat.length).head?)

/-- Model of `/\bpat\b/.test(s)`: scan every position of `s`. -/
def testWordPatAux (pat : List Char) : Option Char → List Char → Bool
  | _, [] => false
  | prev, c :: rest =>
    wordPatHere pat prev (c :: rest) || testWordPatAux pat (some c) rest

/-- Model of `/\b(p1|p2|...)\b/.test(s)` (patterns given in source order). -/
def testWordAny (pats : List (List Char)) (s : List Char) : Bool :=
  pats.any (fun p => testWordPatAux p none s)

/-- Model of `/(p1|p2|...)/.test(s)` for plain substring alternatives. -/
def testSubAny (pats : List (List Char)) (s : List Char) : Bool :=
  pats.any (fun p => containsCl s p)

/-- Count of characters of `l` in the Devanagari block (model of
`(s.match(/[ऀ-ॿ]/g) || []).length`). -/
def countDevanagari (l : List Char) : Nat :=
  (l.filter (fun c => 0x900 ≤ c.toNat && c.toNat ≤ 0x97F)).length

/-- Count of ASCII Latin letters (model of `(s.match(/[A-Za-z]/g) || []).length`). -/
def countLatin (l : List Char) : Nat :=
  (l.filter (fun c => (65 ≤ c.toNat && c.toNat ≤ 90) || (97 ≤ c.toNat && c.toNat ≤ 122))).length

/-- First-occurrence deduplication of a token list (model of `new Set(tokens)`:
the set size and membership are what the similarity code consumes). -/
def dedupCl : List (List Char) → List (List Char)
  | [] => []
  | t :: rest => t :: (dedupCl rest).filter (fun x => !(x == t))

/-- Model of `sliced.lastIndexOf(' ')`: JavaScript returns `-1` when absent. -/
def lastIndexOfSpaceAux : List Char → Nat → Int → Int
  | [], _, best => best
  | c :: rest, i, best =>
    lastIndexOfSpaceAux rest (i + 1) (if c == ' ' then Int.ofNat i else best)

/-- Index of the last space of `l`, or `-1`. -/
def lastIndexOfSpace (l : List Char) : Int := lastIndexOfSpaceAux l 0 (-1)

/-- Model of `String.prototype.trim` on `String`. -/
def jsTrim (s : String) : String := String.mk (trimCl s.data)

/-- ASCII model of `String.prototype.toLowerCase`. -/
def jsLower (s : String) : String := String.mk (lowerCl s.data)

/-- ASCII model of `String.prototype.toUpperCase`. -/
def jsUpper (s : String) : String := String.mk (upperCl s.data)

/-- Model of the JavaScript idiom `a || b` for strings (empty string is falsy). -/
def jsOr (a b : String) : String := if a = "" then b else a

/-- Clamp used by every scorer: `Math.min(100, Math.max(0, score))`. -/
def jsClamp (score : Int) : Int := min 100 (max 0 score)

/-! ## src/services/auditService.js — scoring, language detection, violation shapes -/

namespace AuditService

/-- `detectContentLanguage` (src/services/auditService.js lines 4-10). -/
def detectContentLanguage (text : String) : String :=
  let s := text.data
  let devanagari := countDevanagari s
  let latin := countLatin s
  if 20 ≤ devanagari ∧ latin ≤ devanagari then "hi" else "en"

/-- The parsed shape of one issue of the model JSON consumed by
`runRewriteAudit` (absent fields are the empty string). -/
structure RewriteIssue where
  severity : String
  regulation : String
  description : String
  evidence_line : String
  guidance : String
  fixed_line : String
  fixed_line_b : String
deriving DecidableEq

/-- The normalized violation produced by `runRewriteAudit` (lines 334-346). -/
structure RewriteViolation where
  severity : String
  regulation : String
  description : String
  evidence : String
  recommended_fix : String
  problematicContent : String
  suggestion : String
  solution : String
  index : Nat
deriving DecidableEq

/-- Loop body of the `risk_score` computation of `runRewriteAudit` (lines 353-359). -/
def rewriteScoreStep (score : Int) (v : RewriteViolation) : Int :=
  let s := jsLower v.severity
  if s = "high" ∨ s = "critical" then score - 20
  else if s = "medium" then score - 10
  else if s = "low" then score - 5
  else score - 10

/-- The deterministic risk score of `runRewriteAudit` (lines 350-361). -/
def rewriteRiskScore (normalizedViolations : List RewriteViolation) : Int :=
  if normalizedViolations.isEmpty then 100
  else jsClamp (normalizedViolations.foldl rewriteScoreStep 100)

/-- `risk_level` ternary of `runRewriteAudit` (line 363). -/
def rewriteRiskLevel (risk_score : Int) : String :=
  if 70 ≤ risk_score then "High" else if 40 ≤ risk_score then "Medium" else "Low"

/-- `status` ternary of `runRewriteAudit` (line 364). -/
def rewriteStatus (risk_score : Int) : String :=
  if 70 ≤ risk_score then "NON_COMPLIANT" else "COMPLIANT"

/-- The `(risk_score, risk_level, status)` slice of the result object
assembled by `runRewriteAudit` (lines 350-378). -/
def rewriteRiskFields (normalizedViolations : List RewriteViolation) : Int × String × String :=
  let risk_score := rewriteRiskScore normalizedViolations
  (risk_score, rewriteRiskLevel risk_score, rewriteStatus risk_score)

end AuditService

/-! ## src/services/openaiClient.js — language detection, scoring, cache -/

namespace OpenaiClient

/-- `detectContentLanguage` (src/services/openaiClient.js lines 12-20). -/
def detectContentLanguage (text : String) : String :=
  let s := text.data
  let devanagari := countDevanagari s
  let latin := countLatin s
  if 20 ≤ devanagari ∧ latin ≤ devanagari then "hi" else "en"

/-- Normalized violation shape assembled by `runOpenAIAudit` (lines 1194-1204);
the same shape is stored in, and read back from, the audit cache. -/
structure NormalizedViolation where
  severity : String
  regulation : String
  description : String
  evidence : String
  recommended_fix : String
  problematicContent : String
  suggestion : String
  solution : String
  index : Nat
deriving DecidableEq

/-- Loop body of `calculateDeterministicRiskScore` (lines 367-380). -/
def riskScoreStep (score : Int) (violation : NormalizedViolation) : Int :=
  let severity := jsLower (jsOr violation.severity "Medium")
  if severity = "critical" ∨ severity = "high" then score - 20
  else if severity = "medium" then score - 10
  else if severity = "low" then score - 5
  else score - 10

/-- `calculateDeterministicRiskScore` (lines 360-384). -/
def calculateDeterministicRiskScore (violations : List NormalizedViolation) : Int :=
  if violations.isEmpty then 100
  else jsClamp (violations.foldl riskScoreStep 100)

/-- The risk-level ternary used at lines 395 and 1215. -/
def riskLevelOfScore (deterministicRiskScore : Int) : String :=
  if 70 ≤ deterministicRiskScore then "High"
  else if 40 ≤ deterministicRiskScore then "Medium"
  else "Low"

/-- The status ternary used at lines 407 and 1228. -/
def statusOfScore (deterministicRiskScore : Int) : String :=
  if 70 ≤ deterministicRiskScore then "NON_COMPLIANT" else "COMPLIANT"

/-- The `(risk_score, risk_level, status)` slice of `finalResult`
(lines 1214-1228). -/
def finalRiskFields (normalizedViolations : List NormalizedViolation) : Int × String × String :=
  let deterministicRiskScore := calculateDeterministicRiskScore normalizedViolations
  (deterministicRiskScore, riskLevelOfScore deterministicRiskScore,
    statusOfScore deterministicRiskScore)

/-- The audit-result document stored in the cache (`auditResult` of the
`Audit` model); `risk_score` is the score that was stored with it. -/
structure StoredAuditResult where
  risk_level : String
  risk_score : Int
  compliance_flags : List String
  summary : String
  recommended_actions : List String
  detected_content_types : List String
  violations : List NormalizedViolation
  status : String
  explanation : String
  recommended_fix : String
deriving DecidableEq

/-- A cached audit found by `Audit.findOne({ inputHash, status: 'completed' })`. -/
structure CachedAudit where
  auditResult : StoredAuditResult
deriving DecidableEq

/-- The response returned on a cache hit (lines 390-411).  Arrays are modelled
as lists directly, so the `Array.isArray` re-checks collapse to the identity. -/
def cacheHitResponse (cachedAudit : CachedAudit) : StoredAuditResult :=
  let cachedViolations := cachedAudit.auditResult.violations
  let deterministicRiskScore := calculateDeterministicRiskScore cachedViolations
  { risk_level := riskLevelOfScore deterministicRiskScore
    risk_score := deterministicRiskScore
    compliance_flags := cachedAudit.auditResult.compliance_flags
    summary := jsOr cachedAudit.auditResult.summary
      (jsOr cachedAudit.auditResult.explanation "Audit completed")
    recommended_actions := cachedAudit.auditResult.recommended_actions
    detected_content_types := cachedAudit.auditResult.detected_content_types
    violations := cachedViolations
    status := statusOfScore deterministicRiskScore
    explanation := jsOr cachedAudit.auditResult.explanation
      (jsOr cachedAudit.auditResult.summary "Audit completed")
    recommended_fix := jsOr cachedAudit.auditResult.recommended_fix
      (jsOr (cachedAudit.auditResult.recommended_actions.headD "")
        "Review content for compliance.") }

/-- Quote normalization step of `normalizeForHash` (line 333): the character
class of the source regex contains only the ASCII double quote (three times)
and the ASCII single quote (twice) — no curly quotes. -/
def mapQuoteChars (l : List Char) : List Char :=
  l.map (fun c => if c == '"' || c == squote then '"' else c)

/-- Dash normalization step (line 334): en dash U+2013 and em dash U+2014. -/
def mapDashChars (l : List Char) : List Char :=
  l.map (fun c => if c.toNat = 0x2013 || c.toNat = 0x2014 then '-' else c)

/-- Ellipsis normalization step (line 335): U+2026 becomes three dots. -/
def replaceEllipsisChars : List Char → List Char
  | [] => []
  | c :: rest =>
    if c.toNat = 0x2026 then '.' :: '.' :: '.' :: replaceEllipsisChars rest
    else c :: replaceEllipsisChars rest

/-- `normalizeForHash` (lines 323-338): collapse whitespace, lower-case,
normalize quotes, dashes and the ellipsis, then trim. -/
def normalizeForHash (text : String) : String :=
  String.mk (trimCl (replaceEllipsisChars (mapDashChars (mapQuoteChars
    (lowerCl (collapseWs text.data))))))

/-- `rulePackVersion` (line 342). -/
def rulePackVersion : String := "v1.0.0"

/-- `auditType` (line 343). -/
def emailAuditType : String := "email"

/-- `hashInput` (line 345). -/
def emailHashInput (auditInput : String) : String :=
  normalizeForHash auditInput ++ "|" ++ emailAuditType ++ "|" ++ rulePackVersion

/-- `inputHash` (lines 346-348): the digest (node `crypto` SHA-256, an external
collaborator) applied to `hashInput`; the digest function is a parameter. -/
def emailCacheKey (sha256 : String → String) (auditInput : String) : String :=
  sha256 (emailHashInput auditInput)

end OpenaiClient

/-! ## src/services/contentAuditService.js — risk level and scorer -/

namespace ContentAuditService

/-- `normalizeRiskLevel` (src/services/contentAuditService.js lines 43-49);
`level` is `none` at every call site in the file. -/
def normalizeRiskLevel (level : Option String) (score : Int) : String :=
  let normalized := jsUpper (level.getD "")
  if normalized = "LOW" ∨ normalized = "MEDIUM" ∨ normalized = "HIGH" then normalized
  else if 70 ≤ score then "HIGH"
  else if 40 ≤ score then "MEDIUM"
  else "LOW"

/-- Loop body of `calculateDeterministicRiskScore` (lines 55-61). -/
def riskScoreStep (score : Int) (v : AuditService.RewriteViolation) : Int :=
  let sev := jsLower (jsOr v.severity "medium")
  if sev = "high" ∨ sev = "critical" then score - 20
  else if sev = "medium" then score - 10
  else if sev = "low" then score - 5
  else score - 10

/-- `calculateDeterministicRiskScore` (lines 51-63); its call sites score the
violation lists produced by `auditText`, so it is typed over those violations. -/
def calculateDeterministicRiskScore (violations : List AuditService.RewriteViolation) : Int :=
  if violations.isEmpty then 100
  else jsClamp (violations.foldl riskScoreStep 100)

end ContentAuditService

/-! ## src/controllers/contentAuditController.js — status mapping -/

namespace ContentAuditController

/-- `mapRiskLevelToStatus` (src/controllers/contentAuditController.js lines 7-16). -/
def mapRiskLevelToStatus (riskLevel : String) : String :=
  if riskLevel = "HIGH" then "NON_COMPLIANT"
  else if riskLevel = "MEDIUM" then "NEEDS_REVIEW"
  else "COMPLIANT"

end ContentAuditController

/-! ## Claim-side severity classification and risk-score formula -/

/-- Case-insensitive High/Critical class of the claim formula. -/
def sevIsHighCrit (s : String) : Bool := jsLower s == "high" || jsLower s == "critical"

/-- Case-insensitive Medium class. -/
def sevIsMedium (s : String) : Bool := jsLower s == "medium"

/-- Case-insensitive Low class. -/
def sevIsLow (s : String) : Bool := jsLower s == "low"

/-- Unrecognized severities (this includes the missing/empty severity). -/
def sevIsOther (s : String) : Bool := !(sevIsHighCrit s || sevIsMedium s || sevIsLow s)

/-- The claimed closed-form risk score:
`max(0, min(100, 100 - 20*(#High + #Critical) - 10*#Medium - 5*#Low - 10*#unrecognized))`. -/
def specRiskScore (sevs : List String) : Int :=
  max 0 (min 100 (100 - 20 * ((sevs.filter sevIsHighCrit).length : Int)
    - 10 * ((sevs.filter sevIsMedium).length : Int)
    - 5 * ((sevs.filter sevIsLow).length : Int)
    - 10 * ((sevs.filter sevIsOther).length : Int)))

/-- Deduction of a single finding under the claim formula. -/
def specPenalty (s : String) : Int :=
  if sevIsHighCrit s then 20
  else if sevIsMedium s then 10
  else if sevIsLow s then 5
  else 10

theorem sevIsMedium_eq_false_of_hc {s : String} (h : sevIsHighCrit s = true) :
    sevIsMedium s = false := by
  simp only [sevIsHighCrit, Bool.or_eq_true, beq_iff_eq] at h
  rcases h with h | h <;> simp [sevIsMedium, h]

theorem sevIsLow_eq_false_of_hc {s : String} (h : sevIsHighCrit s = true) :
    sevIsLow s = false := by
  simp only [sevIsHighCrit, Bool.or_eq_true, beq_iff_eq] at h
  rcases h with h | h <;> simp [sevIsLow, h]

theorem sevIsLow_eq_false_of_med {s : String} (h : sevIsMedium s = true) :
    sevIsLow s = false := by
  simp only [sevIsMedium, beq_iff_eq] at h
  simp [sevIsLow, h]

theorem specPenalty_eq_ind (s : String) :
    specPenalty s = 20 * (if sevIsHighCrit s then (1 : Int) else 0)
      + 10 * (if sevIsMedium s then (1 : Int) else 0)
      + 5 * (if sevIsLow s then (1 : Int) else 0)
      + 10 * (if sevIsOther s then (1 : Int) else 0) := by
  unfold specPenalty sevIsOther
  by_cases h1 : sevIsHighCrit s
  · simp [h1, sevIsMedium_eq_false_of_hc h1, sevIsLow_eq_false_of_hc h1]
  · by_cases h2 : sevIsMedium s
    · simp [h1, h2, sevIsLow_eq_false_of_med h2]
    · by_cases h3 : sevIsLow s <;> simp [h1, h2, h3]

theorem specPenalty_sum (sevs : List String) :
    (sevs.map specPenalty).sum =
      20 * ((sevs.filter sevIsHighCrit).length : Int)
      + 10 * ((sevs.filter sevIsMedium).length : Int)
      + 5 * ((sevs.filter sevIsLow).length : Int)
      + 10 * ((sevs.filter sevIsOther).length : Int) := by
  induction sevs with
  | nil => simp
  | cons s rest ih =>
    simp only [List.map_cons, List.sum_cons, List.filter_cons, ih, specPenalty_eq_ind s]
    split_ifs <;> simp <;> ring

theorem jsClamp_eq_spec_clamp (x : Int) : jsClamp x = max 0 (min 100 x) := by
  unfold jsClamp
  rcases le_total x 0 with h | h <;> rcases le_total x 100 with h2 | h2 <;>
    simp [min_def, max_def] <;> omega

theorem rewriteScoreStep_eq (score : Int) (v : AuditService.RewriteViolation) :
    AuditService.rewriteScoreStep score v = score - specPenalty v.severity := by
  unfold AuditService.rewriteScoreStep specPenalty sevIsHighCrit sevIsMedium sevIsLow
  by_cases h1 : jsLower v.severity = "high" <;>
    by_cases h2 : jsLower v.severity = "critical" <;>
    by_cases h3 : jsLower v.severity = "medium" <;>
    by_cases h4 : jsLower v.severity = "low" <;>
    simp_all

theorem openaiScoreStep_eq (score : Int) (v : OpenaiClient.NormalizedViolation) :
    OpenaiClient.riskScoreStep score v = score - specPenalty v.severity := by
  unfold OpenaiClient.riskScoreStep specPenalty sevIsHighCrit sevIsMedium sevIsLow
  by_cases h0 : v.severity = ""
  · rw [h0]
    rw [show jsOr "" "Medium" = "Medium" from rfl,
      show jsLower "Medium" = "medium" from by decide,
      show jsLower "" = "" from rfl]
    simp
  · simp only [jsOr, if_neg h0]
    by_cases h1 : jsLower v.severity = "high" <;>
      by_cases h2 : jsLower v.severity = "critical" <;>
      by_cases h3 : jsLower v.severity = "medium" <;>
      by_cases h4 : jsLower v.severity = "low" <;>
      simp_all

theorem contentScoreStep_eq (score : Int) (v : AuditService.RewriteViolation) :
    ContentAuditService.riskScoreStep score v = score - specPenalty v.severity := by
  unfold ContentAuditService.riskScoreStep specPenalty sevIsHighCrit sevIsMedium sevIsLow
  by_cases h0 : v.severity = ""
  · rw [h0]
    rw [show jsOr "" "medium" = "medium" from rfl,
      show jsLower "medium" = "medium" from by decide,
      show jsLower "" = "" from rfl]
    simp
  · simp only [jsOr, if_neg h0]
    by_cases h1 : jsLower v.severity = "high" <;>
      by_cases h2 : jsLower v.severity = "critical" <;>
      by_cases h3 : jsLower v.severity = "medium" <;>
      by_cases h4 : jsLower v.severity = "low" <;>
      simp_all

theorem rewriteScore_foldl (l : List AuditService.RewriteViolation) (init : Int) :
    l.foldl AuditService.rewriteScoreStep init =
      init - ((l.map (fun v => v.severity)).map specPenalty).sum := by
  induction l generalizing init with
  | nil => simp
  | cons v rest ih =>
    rw [List.foldl_cons, ih, rewriteScoreStep_eq]
    simp only [List.map_cons, List.sum_cons]
    ring

theorem openaiScore_foldl (l : List OpenaiClient.NormalizedViolation) (init : Int) :
    l.foldl OpenaiClient.riskScoreStep init =
      init - ((l.map (fun v => v.severity)).map specPenalty).sum := by
  induction l generalizing init with
  | nil => simp
  | cons v rest ih =>
    rw [List.foldl_cons, ih, openaiScoreStep_eq]
    simp only [List.map_cons, List.sum_cons]
    ring

theorem contentScore_foldl (l : List AuditService.RewriteViolation) (init : Int) :
    l.foldl ContentAuditService.riskScoreStep init =
      init - ((l.map (fun v => v.severity)).map specPenalty).sum := by
  induction l generalizing init with
  | nil => simp
  | cons v rest ih =>
    rw [List.foldl_cons, ih, contentScoreStep_eq]
    simp only [List.map_cons, List.sum_cons]
    ring

theorem specRiskScore_eq_clamp (sevs : List String) :
    specRiskScore sevs = jsClamp (100 - (sevs.map specPenalty).sum) := by
  rw [jsClamp_eq_spec_clamp, specRiskScore, specPenalty_sum]
  ring_nf

/-! ## Claim C1 — deterministic risk score formula -/

/-- C1: in every module (openaiClient, auditService rewrite path,
contentAuditService), the computed risk score equals
`max(0, min(100, 100 - 20*(#High + #Critical) - 10*#Medium - 5*#Low -
10*#unrecognized))` over the findings' severities, compared
case-insensitively, with unrecognized or missing severities penalized like
Medium; the score is a function of the severities alone, and the empty
finding list yields 100. -/
theorem risk_score_formula :
    (∀ l : List OpenaiClient.NormalizedViolation,
      OpenaiClient.calculateDeterministicRiskScore l =
        specRiskScore (l.map (fun v => v.severity))) ∧
    (∀ l : List AuditService.RewriteViolation,
      AuditService.rewriteRiskScore l = specRiskScore (l.map (fun v => v.severity))) ∧
    (∀ l : List AuditService.RewriteViolation,
      ContentAuditService.calculateDeterministicRiskScore l =
        specRiskScore (l.map (fun v => v.severity))) ∧
    specRiskScore [] = 100 := by
  refine ⟨fun l => ?_, fun l => ?_, fun l => ?_, by decide⟩
  · rw [OpenaiClient.calculateDeterministicRiskScore, specRiskScore_eq_clamp]
    rcases l with _ | ⟨v, rest⟩
    · decide
    · rw [if_neg (by simp), openaiScore_foldl]
  · rw [AuditService.rewriteRiskScore, specRiskScore_eq_clamp]
    rcases l with _ | ⟨v, rest⟩
    · decide
    · rw [if_neg (by simp), rewriteScore_foldl]
  · rw [ContentAuditService.calculateDeterministicRiskScore, specRiskScore_eq_clamp]
    rcases l with _ | ⟨v, rest⟩
    · decide
    · rw [if_neg (by simp), contentScore_foldl]

/-! ## Claim C10 — language classifier -/

/-- Input with exactly 20 Devanagari characters and 20 Latin letters: the
Devanagari count reaches the threshold but does not exceed the Latin count. -/
def tieBreakInput : String := String.mk (List.replicate 20 'क' ++ List.replicate 20 'a')

/-- C10 (counterexample): at 20 Devanagari characters and 20 Latin letters the
Devanagari count does not exceed the Latin count, yet the classifier returns
"hi" (the source tests `devanagari >= latin`, not a strict comparison), where
the claim requires the default "en". -/
theorem detect_language_tie_counterexample :
    countDevanagari tieBreakInput.data = 20 ∧
    countLatin tieBreakInput.data = 20 ∧
    AuditService.detectContentLanguage tieBreakInput = "hi" ∧
    OpenaiClient.detectContentLanguage tieBreakInput = "hi" ∧
    AuditService.detectContentLanguage tieBreakInput ≠ "en" := by
  refine ⟨by decide, by decide, by decide, by decide, by decide⟩

/-- C10 (amended): both copies of the classifier are total functions into the
closed set of tags, returning "hi" exactly when the Devanagari count reaches
20 and is at least (not strictly greater than) the Latin-letter count, and
"en" otherwise. -/
theorem detect_language_spec (s : String) :
    (AuditService.detectContentLanguage s = "hi" ∨
      AuditService.detectContentLanguage s = "en") ∧
    (AuditService.detectContentLanguage s = "hi" ↔
      20 ≤ countDevanagari s.data ∧ countLatin s.data ≤ countDevanagari s.data) ∧
    OpenaiClient.detectContentLanguage s = AuditService.detectContentLanguage s := by
  unfold AuditService.detectContentLanguage OpenaiClient.detectContentLanguage
  dsimp only
  split_ifs with h
  · exact ⟨Or.inl rfl, ⟨fun _ => h, fun _ => rfl⟩, rfl⟩
  · exact ⟨Or.inr rfl, ⟨fun hc => absurd hc (by decide), fun hc => absurd hc h⟩, rfl⟩

/-! ## Claim C2 — risk level and compliance status thresholds -/

/-- C2 (counterexample): at score 50 (Medium band) the content-audit
controller maps the level to status "NEEDS_REVIEW", not "COMPLIANT", although
50 < 70; so "COMPLIANT otherwise" does not hold in every module. -/
theorem status_needs_review_counterexample :
    ContentAuditController.mapRiskLevelToStatus
      (ContentAuditService.normalizeRiskLevel none 50) = "NEEDS_REVIEW" ∧
    ContentAuditController.mapRiskLevelToStatus
      (ContentAuditService.normalizeRiskLevel none 50) ≠ "COMPLIANT" ∧
    ¬ (70 ≤ (50 : Int)) := by
  refine ⟨by decide, by decide, by decide⟩

/-- C2 (amended): the qualitative level flips at 70 and 40 in every module;
the services (auditService, openaiClient, and the cache-hit path, which uses
the same ternaries) map status to NON_COMPLIANT exactly at score ≥ 70 and to
COMPLIANT otherwise; the content-audit controller also flips NON_COMPLIANT at
70, but maps the Medium band (40 ≤ s < 70) to the third status NEEDS_REVIEW
rather than COMPLIANT. -/
theorem risk_level_status_thresholds (s : Int) :
    (OpenaiClient.riskLevelOfScore s = "High" ↔ 70 ≤ s) ∧
    (OpenaiClient.riskLevelOfScore s = "Medium" ↔ 40 ≤ s ∧ s < 70) ∧
    (OpenaiClient.riskLevelOfScore s = "Low" ↔ s < 40) ∧
    AuditService.rewriteRiskLevel s = OpenaiClient.riskLevelOfScore s ∧
    (AuditService.rewriteStatus s = "NON_COMPLIANT" ↔ 70 ≤ s) ∧
    (AuditService.rewriteStatus s = "COMPLIANT" ↔ s < 70) ∧
    (OpenaiClient.statusOfScore s = "NON_COMPLIANT" ↔ 70 ≤ s) ∧
    (OpenaiClient.statusOfScore s = "COMPLIANT" ↔ s < 70) ∧
    (ContentAuditService.normalizeRiskLevel none s = "HIGH" ↔ 70 ≤ s) ∧
    (ContentAuditService.normalizeRiskLevel none s = "MEDIUM" ↔ 40 ≤ s ∧ s < 70) ∧
    (ContentAuditService.normalizeRiskLevel none s = "LOW" ↔ s < 40) ∧
    ContentAuditController.mapRiskLevelToStatus (ContentAuditService.normalizeRiskLevel none s) =
      (if 70 ≤ s then "NON_COMPLIANT" else if 40 ≤ s then "NEEDS_REVIEW" else "COMPLIANT") := by
  unfold OpenaiClient.riskLevelOfScore OpenaiClient.statusOfScore
    AuditService.rewriteRiskLevel AuditService.rewriteStatus
    ContentAuditService.normalizeRiskLevel ContentAuditController.mapRiskLevelToStatus
  dsimp only
  rw [show jsUpper ((none : Option String).getD "") = "" from by decide]
  rw [if_neg (show ¬("" = "LOW" ∨ "" = "MEDIUM" ∨ "" = "HIGH") from by decide)]
  split_ifs <;>
    refine ⟨?_, ?_, ?_, ?_, ?_, ?_, ?_, ?_, ?_, ?_, ?_, ?_⟩ <;>
    simp_all <;> omega

/-! ## Claim C3 — empty finding list is scored 100 / High / NON_COMPLIANT -/

/-- C3: when the finding list is empty, the assembled results report risk
score 100, risk level "High", and status "NON_COMPLIANT" (rewrite path and
email path), and the content-audit path reports score 100 with level "HIGH";
the "perfect" score is mapped to the highest risk band by the published
threshold mapping. -/
theorem empty_findings_scored_high :
    OpenaiClient.finalRiskFields [] = (100, "High", "NON_COMPLIANT") ∧
    AuditService.rewriteRiskFields [] = (100, "High", "NON_COMPLIANT") ∧
    ContentAuditService.calculateDeterministicRiskScore [] = 100 ∧
    ContentAuditService.normalizeRiskLevel none
      (ContentAuditService.calculateDeterministicRiskScore []) = "HIGH" ∧
    ContentAuditController.mapRiskLevelToStatus
      (ContentAuditService.normalizeRiskLevel none
        (ContentAuditService.calculateDeterministicRiskScore [])) = "NON_COMPLIANT" := by
  refine ⟨by decide, by decide, by decide, by decide, by decide⟩

/-! ## Claim C7 — cache hit recomputes the risk score -/

/-- C7: on a cache hit the returned `risk_score` is the deterministic score
recomputed from the stored violations' severities, the returned level and
status are derived from that recomputed score (NON_COMPLIANT iff ≥ 70), and
the response does not depend on the risk score stored in the cache entry. -/
theorem cache_hit_recomputes_score (cachedAudit : OpenaiClient.CachedAudit) :
    (OpenaiClient.cacheHitResponse cachedAudit).risk_score =
      OpenaiClient.calculateDeterministicRiskScore cachedAudit.auditResult.violations ∧
    (OpenaiClient.cacheHitResponse cachedAudit).risk_level =
      OpenaiClient.riskLevelOfScore
        (OpenaiClient.calculateDeterministicRiskScore cachedAudit.auditResult.violations) ∧
    ((OpenaiClient.cacheHitResponse cachedAudit).status = "NON_COMPLIANT" ↔
      70 ≤ OpenaiClient.calculateDeterministicRiskScore cachedAudit.auditResult.violations) ∧
    ((OpenaiClient.cacheHitResponse cachedAudit).status = "COMPLIANT" ↔
      OpenaiClient.calculateDeterministicRiskScore cachedAudit.auditResult.violations < 70) ∧
    (∀ storedScore : Int,
      OpenaiClient.cacheHitResponse
        { cachedAudit with
          auditResult := { cachedAudit.auditResult with risk_score := storedScore } } =
      OpenaiClient.cacheHitResponse cachedAudit) := by
  refine ⟨rfl, rfl, ?_, ?_, fun storedScore => rfl⟩
  · unfold OpenaiClient.cacheHitResponse OpenaiClient.statusOfScore
    dsimp only
    split_ifs with h <;> simp_all
  · unfold OpenaiClient.cacheHitResponse OpenaiClient.statusOfScore
    dsimp only
    split_ifs with h <;> simp_all

/-! ## Claim C6 — cache-key normalization -/

theorem mem_of_mem_dropWhile {c : Char} {p : Char → Bool} {l : List Char}
    (h : c ∈ l.dropWhile p) : c ∈ l :=
  (List.dropWhile_sublist p (l := l)).mem h

theorem mem_of_mem_trimCl {c : Char} {l : List Char} (h : c ∈ trimCl l) : c ∈ l := by
  unfold trimCl at h
  rw [List.mem_reverse] at h
  have h2 := mem_of_mem_dropWhile h
  rw [List.mem_reverse] at h2
  exact mem_of_mem_dropWhile h2

theorem mem_mapQuoteChars_ne_squote {c : Char} {l : List Char}
    (h : c ∈ OpenaiClient.mapQuoteChars l) : c ≠ squote := by
  unfold OpenaiClient.mapQuoteChars at h
  rcases List.mem_map.mp h with ⟨b, _, rfl⟩
  by_cases hb : b == '"' || b == squote
  · rw [if_pos hb]; decide
  · rw [if_neg hb]
    rw [Bool.or_eq_true, beq_iff_eq, beq_iff_eq] at hb
    push_neg at hb
    exact hb.2

theorem mem_mapDashChars {c : Char} {l : List Char}
    (h : c ∈ OpenaiClient.mapDashChars l) :
    c = '-' ∨ (c ∈ l ∧ c.toNat ≠ 0x2013 ∧ c.toNat ≠ 0x2014) := by
  unfold OpenaiClient.mapDashChars at h
  rcases List.mem_map.mp h with ⟨b, hb, rfl⟩
  by_cases hd : b.toNat = 0x2013 || b.toNat = 0x2014
  · rw [if_pos hd]; exact Or.inl rfl
  · rw [if_neg hd]
    rw [Bool.or_eq_true, decide_eq_true_iff, decide_eq_true_iff] at hd
    push_neg at hd
    exact Or.inr ⟨hb, hd.1, hd.2⟩

theorem mem_replaceEllipsisChars {c : Char} {l : List Char}
    (h : c ∈ OpenaiClient.replaceEllipsisChars l) :
    c = '.' ∨ (c ∈ l ∧ c.toNat ≠ 0x2026) := by
  induction l with
  | nil =>
    rw [OpenaiClient.replaceEllipsisChars] at h
    exact absurd h (List.not_mem_nil c)
  | cons a rest ih =>
    rw [OpenaiClient.replaceEllipsisChars] at h
    by_cases ha : a.toNat = 0x2026
    · rw [if_pos ha] at h
      simp only [List.mem_cons] at h
      rcases h with h | h | h | h
      · exact Or.inl h
      · exact Or.inl h
      · exact Or.inl h
      · rcases ih h with h2 | h2
        · exact Or.inl h2
        · exact Or.inr ⟨List.mem_cons_of_mem _ h2.1, h2.2⟩
    · rw [if_neg ha] at h
      rcases List.mem_cons.mp h with h | h
      · exact Or.inr ⟨h ▸ List.mem_cons_self _ _, h ▸ ha⟩
      · rcases ih h with h2 | h2
        · exact Or.inl h2
        · exact Or.inr ⟨List.mem_cons_of_mem _ h2.1, h2.2⟩

/-- C6 (counterexample): curly (smart) double quotes are left untouched by
`normalizeForHash` — the quote class of the source regex contains only the
ASCII quote characters — so the smart-quoted and straight-quoted variants of
the same text normalize (and therefore hash) differently, although the claim
says smart quotes are canonicalized. -/
theorem smart_quotes_not_canonicalized :
    OpenaiClient.normalizeForHash (String.mk [Char.ofNat 0x201C, 'a', Char.ofNat 0x201D]) =
      String.mk [Char.ofNat 0x201C, 'a', Char.ofNat 0x201D] ∧
    OpenaiClient.normalizeForHash (String.mk ['"', 'a', '"']) = String.mk ['"', 'a', '"'] ∧
    OpenaiClient.normalizeForHash (String.mk [Char.ofNat 0x201C, 'a', Char.ofNat 0x201D]) ≠
      OpenaiClient.normalizeForHash (String.mk ['"', 'a', '"']) := by
  refine ⟨by decide, by decide, by decide⟩

/-- C6 (amended): the cache key is the digest of
`normalize(content) + "|" + "email" + "|" + "v1.0.0"`, where `normalize`
lower-cases, collapses whitespace runs, maps ASCII quotes (single quote to
double quote), en/em dashes and the ellipsis character to canonical forms and
trims — but leaves curly "smart" quotes unchanged; consequently two inputs
with the same normalization (and the same audit type and rule-pack version)
receive the same key, and the normalized text contains no en/em dash, no
ellipsis character and no ASCII single quote. -/
theorem cache_key_normalization (sha256 : String → String) (t1 t2 : String)
    (h : OpenaiClient.normalizeForHash t1 = OpenaiClient.normalizeForHash t2) :
    OpenaiClient.emailCacheKey sha256 t1 = OpenaiClient.emailCacheKey sha256 t2 ∧
    (∀ c ∈ (OpenaiClient.normalizeForHash t1).data,
      c.toNat ≠ 0x2013 ∧ c.toNat ≠ 0x2014 ∧ c.toNat ≠ 0x2026 ∧ c ≠ squote) := by
  constructor
  · unfold OpenaiClient.emailCacheKey OpenaiClient.emailHashInput
    rw [h]
  · intro c hc
    unfold OpenaiClient.normalizeForHash at hc
    dsimp only at hc
    have h1 := mem_of_mem_trimCl hc
    rcases mem_replaceEllipsisChars h1 with h2 | ⟨h2, hne⟩
    · subst h2
      refine ⟨by decide, by decide, by decide, by decide⟩
    · rcases mem_mapDashChars h2 with h3 | ⟨h3, hd1, hd2⟩
      · subst h3
        refine ⟨by decide, by decide, hne, by decide⟩
      · exact ⟨hd1, hd2, hne, mem_mapQuoteChars_ne_squote h3⟩

/-- C6 (witness): two texts differing in case and whitespace share one
normalization and therefore one cache key. -/
theorem cache_key_normalization_witness :
    OpenaiClient.emailCacheKey (fun s => s) "Hello   World" =
      OpenaiClient.emailCacheKey (fun s => s) " hello world " :=
  (cache_key_normalization (fun s => s) "Hello   World" " hello world " (by decide)).1

/-! ## Similarity engines (C9) -/

/-- The token-set computation shared by both engines once each engine has
produced its token sets: JavaScript `Set` sizes, intersection loop and
`union === 0 ? 0 : intersection / union`. -/
def interCount (wordsA wordsB : List (List Char)) : Nat :=
  (wordsA.filter (fun w => wordsB.contains w)).length

/-- `union = wordsA.size + wordsB.size - intersection` of the source. -/
def unionCount (wordsA wordsB : List (List Char)) : Nat :=
  wordsA.length + wordsB.length - interCount wordsA wordsB

def jaccardOfTokens (wordsA wordsB : List (List Char)) : ℚ :=
  if wordsA.length = 0 ∨ wordsB.length = 0 then 0
  else if unionCount wordsA wordsB = 0 then 0
  else (interCount wordsA wordsB : ℚ) / (unionCount wordsA wordsB : ℚ)

namespace AuditService

/-- Punctuation class of `normalizeTextForCompare` (line 458). -/
def punctClass : List Char :=
  ['"', squote, backquote, ',', '.', '-', ';', ':', '!', '?', '(', ')']

/-- `normalizeTextForCompare` (src/services/auditService.js lines 454-461):
lower-case, strip punctuation, collapse whitespace, trim. -/
def normalizeTextForCompare (text : String) : String :=
  String.mk (trimCl (collapseWs
    ((lowerCl text.data).filter (fun c => !(punctClass.contains c)))))

/-- Token set of `jaccardSimilarity` (lines 465-468): split on single spaces,
keep words of length at least 3, deduplicate (`new Set`). -/
def jaccardTokens (t : String) : List (List Char) :=
  dedupCl ((splitOnChar ' ' (normalizeTextForCompare t).data).filter
    (fun w => 3 ≤ w.length))

/-- `jaccardSimilarity` (src/services/auditService.js lines 465-480). -/
def jaccardSimilarity (a b : String) : ℚ :=
  jaccardOfTokens (jaccardTokens a) (jaccardTokens b)

end AuditService

namespace OpenaiClient

/-- `normalizeTextForCompare` (src/services/openaiClient.js lines 712-720):
lower-case, remove quote characters, replace every character outside
`[a-z0-9\s]` by a space, collapse whitespace, trim. -/
def normalizeTextForCompare (s : String) : String :=
  String.mk (trimCl (collapseWs
    (((lowerCl s.data).filter
        (fun c => !(c == '"' || c == squote || c == backquote))).map
      (fun c =>
        if (97 ≤ c.toNat && c.toNat ≤ 122) || (48 ≤ c.toNat && c.toNat ≤ 57) || isJsWs c
        then c else ' '))))

/-- Token set of `jaccardSimilarity` (lines 806-807): all nonempty tokens are
kept (`filter(Boolean)` — no length filter in this copy of the engine). -/
def jaccardTokens (t : String) : List (List Char) :=
  dedupCl ((splitOnChar ' ' (normalizeTextForCompare t).data).filter
    (fun w => !w.isEmpty))

/-- `jaccardSimilarity` (src/services/openaiClient.js lines 805-813). -/
def jaccardSimilarity (a b : String) : ℚ :=
  jaccardOfTokens (jaccardTokens a) (jaccardTokens b)

end OpenaiClient

theorem dedupCl_nodup (L : List (List Char)) : (dedupCl L).Nodup := by
  induction L with
  | nil => simp [dedupCl]
  | cons t rest ih =>
    rw [dedupCl]
    rw [List.nodup_cons]
    refine ⟨?_, ih.filter _⟩
    intro hmem
    have := (List.mem_filter.mp hmem).2
    simp at this


theorem mem_dedupCl {x : List Char} {L : List (List Char)} : x ∈ dedupCl L ↔ x ∈ L := by
  induction L with
  | nil => simp [dedupCl]
  | cons t rest ih =>
    rw [dedupCl]
    simp only [List.mem_cons, List.mem_filter]
    constructor
    · rintro (rfl | ⟨hmem, _⟩)
      · exact Or.inl rfl
      · exact Or.inr (ih.mp hmem)
    · rintro (rfl | hmem)
      · exact Or.inl rfl
      · by_cases hx : x = t
        · exact Or.inl hx
        · exact Or.inr ⟨ih.mpr hmem, by simp [hx]⟩

theorem interCount_eq_card {A B : List (List Char)} (hA : A.Nodup) :
    interCount A B = (A.toFinset ∩ B.toFinset).card := by
  unfold interCount
  rw [← List.toFinset_card_of_nodup (hA.filter _)]
  congr 1
  rw [List.toFinset_filter]
  rw [← Finset.filter_mem_eq_inter]
  apply Finset.filter_congr
  intro x _
  simp

theorem interCount_le_left (A B : List (List Char)) : interCount A B ≤ A.length :=
  List.length_filter_le _ _

theorem interCount_le_right {A B : List (List Char)} (hA : A.Nodup) :
    interCount A B ≤ B.length := by
  rw [interCount_eq_card hA]
  calc (A.toFinset ∩ B.toFinset).card
      ≤ B.toFinset.card := Finset.card_le_card Finset.inter_subset_right
    _ ≤ B.length := B.toFinset_card_le

theorem jaccardOfTokens_comm {A B : List (List Char)} (hA : A.Nodup) (hB : B.Nodup) :
    jaccardOfTokens A B = jaccardOfTokens B A := by
  unfold jaccardOfTokens unionCount
  rw [interCount_eq_card hA, interCount_eq_card hB, Finset.inter_comm]
  by_cases h1 : A.length = 0 <;> by_cases h2 : B.length = 0
  · simp [h1, h2]
  · simp [h1, h2]
  · simp [h1, h2]
  · simp [h1, h2]; rw [Nat.add_comm]

theorem jaccardOfTokens_nonneg (A B : List (List Char)) :
    0 ≤ jaccardOfTokens A B := by
  unfold jaccardOfTokens
  split_ifs
  · exact le_refl 0
  · exact le_refl 0
  · positivity

theorem jaccardOfTokens_le_one {A B : List (List Char)} (hA : A.Nodup) :
    jaccardOfTokens A B ≤ 1 := by
  unfold jaccardOfTokens
  split_ifs with h1 h2
  · exact zero_le_one
  · exact zero_le_one
  · have hle : interCount A B ≤ unionCount A B := by
      have ha := interCount_le_left A B
      have hb := interCount_le_right (B := B) hA
      unfold unionCount
      omega
    rw [div_le_one]
    · exact_mod_cast hle
    · exact_mod_cast Nat.pos_of_ne_zero h2

theorem jaccardOfTokens_empty {A B : List (List Char)} (h : A = [] ∨ B = []) :
    jaccardOfTokens A B = 0 := by
  unfold jaccardOfTokens
  rcases h with h | h
  · rw [h]; simp
  · rw [h]; simp

/-! ## Claim C9 — similarity engine -/

/-- C9 (counterexample): the openaiClient similarity engine keeps tokens
shorter than 3 characters: on the two-character inputs "ab" and "ab" it
returns 1, whereas under the claimed short-token discard both token sets
would be empty and the result would be 0 — which is what the auditService
engine (which does filter `w.length >= 3`) returns. -/
theorem short_token_counterexample :
    OpenaiClient.jaccardSimilarity "ab" "ab" = 1 ∧
    AuditService.jaccardSimilarity "ab" "ab" = 0 ∧
    OpenaiClient.jaccardSimilarity "ab" "ab" ≠ 0 := by
  have h1 : OpenaiClient.jaccardTokens "ab" = [['a', 'b']] := by decide
  have h2 : AuditService.jaccardTokens "ab" = [] := by decide
  have hval : OpenaiClient.jaccardSimilarity "ab" "ab" = 1 := by
    unfold OpenaiClient.jaccardSimilarity jaccardOfTokens
    rw [h1]
    rw [if_neg (by decide), if_neg (by decide)]
    rw [show interCount [['a', 'b']] [['a', 'b']] = 1 from by decide]
    rw [show unionCount [['a', 'b']] [['a', 'b']] = 1 from by decide]
    norm_num
  refine ⟨hval, ?_, by rw [hval]; norm_num⟩
  unfold AuditService.jaccardSimilarity
  rw [h2]
  exact jaccardOfTokens_empty (Or.inl rfl)

/-- C9 (amended): both similarity engines are deterministic, symmetric and
valued in [0,1], and return 0 whenever either token set is empty; tokens
shorter than 3 characters are discarded by the auditService engine, while the
openaiClient engine keeps every nonempty token. -/
theorem jaccard_similarity_spec (a b : String) :
    AuditService.jaccardSimilarity a b = AuditService.jaccardSimilarity b a ∧
    OpenaiClient.jaccardSimilarity a b = OpenaiClient.jaccardSimilarity b a ∧
    0 ≤ AuditService.jaccardSimilarity a b ∧
    AuditService.jaccardSimilarity a b ≤ 1 ∧
    0 ≤ OpenaiClient.jaccardSimilarity a b ∧
    OpenaiClient.jaccardSimilarity a b ≤ 1 ∧
    (AuditService.jaccardTokens a = [] ∨ AuditService.jaccardTokens b = [] →
      AuditService.jaccardSimilarity a b = 0) ∧
    (OpenaiClient.jaccardTokens a = [] ∨ OpenaiClient.jaccardTokens b = [] →
      OpenaiClient.jaccardSimilarity a b = 0) ∧
    (∀ w ∈ AuditService.jaccardTokens a, 3 ≤ w.length) ∧
    (∀ w ∈ OpenaiClient.jaccardTokens a, 1 ≤ w.length) := by
  refine ⟨jaccardOfTokens_comm (dedupCl_nodup _) (dedupCl_nodup _),
    jaccardOfTokens_comm (dedupCl_nodup _) (dedupCl_nodup _),
    jaccardOfTokens_nonneg _ _,
    jaccardOfTokens_le_one (dedupCl_nodup _),
    jaccardOfTokens_nonneg _ _,
    jaccardOfTokens_le_one (dedupCl_nodup _),
    fun h => jaccardOfTokens_empty h,
    fun h => jaccardOfTokens_empty h,
    fun w hw => ?_, fun w hw => ?_⟩
  · unfold AuditService.jaccardTokens at hw
    have := (List.mem_filter.mp (mem_dedupCl.mp hw)).2
    simpa using this
  · unfold OpenaiClient.jaccardTokens at hw
    have := (List.mem_filter.mp (mem_dedupCl.mp hw)).2
    rcases w with _ | ⟨c, rest⟩
    · simp at this
    · simp [Nat.succ_le_succ, Nat.zero_le]

/-- C9 (witness): concrete empty-token-set inputs on which both engines
return 0, via the main theorem. -/
theorem jaccard_similarity_spec_witness :
    AuditService.jaccardSimilarity "compliance risk" "" = 0 ∧
    OpenaiClient.jaccardSimilarity "" "compliance risk" = 0 :=
  ⟨(jaccard_similarity_spec "compliance risk" "").2.2.2.2.2.2.1 (Or.inr (by decide)),
   (jaccard_similarity_spec "" "compliance risk").2.2.2.2.2.2.2.1 (Or.inl (by decide))⟩

/-! ## src/services/auditService.js — rewrite-audit normalization pipeline -/

namespace AuditService

/-- Character class of `stripWrappingQuotes` (line 43): `["'\s]`. -/
def wrapQuoteClass (c : Char) : Bool := c == '"' || c == squote || isJsWs c

/-- `stripWrappingQuotes` (lines 42-44). -/
def stripWrappingQuotes (s : String) : String :=
  jsTrim (String.mk
    ((((jsTrim s).data.dropWhile wrapQuoteClass).reverse.dropWhile wrapQuoteClass).reverse))

/-- Sentence enders of `sentenceCount` and `splitIntoCandidateLines`
(lines 50 and 105): `[.!?।]` (U+0964 is the danda). -/
def sentenceEnders : List Char := ['.', '!', '?', Char.ofNat 0x964]

/-- `sentenceCount` (lines 46-52). -/
def sentenceCount (text : String) : Nat :=
  let s := jsTrim text
  if s = "" then 0
  else (((splitAfterEnders sentenceEnders s.data).map trimCl).filter
    (fun p => !p.isEmpty)).length

/-- The banned "do this" verb list of `hasAnyActionVerb` (line 57). -/
def actionVerbList : List String :=
  ["verify", "ensure", "add", "remove", "maintain", "train", "document", "update",
   "revise", "rewrite", "include", "limit", "restrict", "disable", "configure",
   "implement", "collect", "store", "share", "disclose", "obtain", "provide", "use",
   "stop", "delete", "submit", "apply", "create", "send", "notify", "check",
   "validate", "approve", "request"]

/-- `hasAnyActionVerb` (lines 54-58): word-bounded, case-insensitive test over
the compare-normalized (already lower-cased) text. -/
def hasAnyActionVerb (text : String) : Bool :=
  testWordAny (actionVerbList.map (fun w => w.data)) (normalizeTextForCompare text).data

/-- Modal words rejected by `isGuidanceValid` (line 66). -/
def modalWordList : List String := ["should", "must", "need to", "please"]

/-- `isGuidanceValid` (lines 60-68). -/
def isGuidanceValid (guidance : String) : Bool :=
  let g := jsTrim guidance
  if g = "" then false
  else if 2 < sentenceCount g then false
  else if hasAnyActionVerb g then false
  else if testWordAny (modalWordList.map (fun w => w.data)) (lowerCl g.data) then false
  else true

/-- `looksHindi` (lines 70-73). -/
def looksHindi (text : String) : Bool := 10 ≤ countDevanagari text.data

/-- `looksEnglish` (lines 75-80). -/
def looksEnglish (text : String) : Bool := countDevanagari text.data == 0

/-- Hindi absolutes/guarantees substring alternatives (line 85, after the
word-bounded `100%` alternative). -/
def absolutesHindi : List String :=
  ["गारंटी", "गारण्टी", "पूर्णतः", "पूरी तरह", "हमेशा", "कभी नहीं", "स्थायी",
   "तुरंत", "अचूक", "पक्का", "जड़ से", "साइड इफेक्ट नहीं"]

/-- English absolutes/guarantees word alternatives (line 87). -/
def absolutesEnglish : List String :=
  ["100%", "guarantee", "guaranteed", "sure shot", "instant", "permanent",
   "always", "never", "no side effects", "cure", "cures", "cured"]

/-- `hasAbsolutesOrGuarantees` (lines 82-88); the text is lower-cased first
(the `/i` flags only affect Latin letters, which are lower-cased anyway). -/
def hasAbsolutesOrGuarantees (text : String) (lang : String) : Bool :=
  let s := (jsLower text).data
  if lang = "hi" then
    testWordPatAux "100%".data none s || testSubAny (absolutesHindi.map (fun w => w.data)) s
  else
    testWordAny (absolutesEnglish.map (fun w => w.data)) s

/-- `isFixedLineValid` (lines 90-97). -/
def isFixedLineValid (fixedLine : String) (lang : String) : Bool :=
  let s := jsTrim fixedLine
  if s = "" then false
  else if containsCl s.data ['\n'] then false
  else if hasAbsolutesOrGuarantees s lang then false
  else if lang = "hi" then looksHindi s
  else looksEnglish s

/-- `splitIntoCandidateLines` (lines 99-108). -/
def splitIntoCandidateLines (inputText : String) : List String :=
  let rawLines := ((splitLinesCl inputText.data).map trimCl).filter (fun l => !l.isEmpty)
  if !rawLines.isEmpty then rawLines.map String.mk
  else (((splitAfterEnders sentenceEnders inputText.data).map trimCl).filter
    (fun l => !l.isEmpty)).map String.mk

/-- Character class kept by the token extraction of `pickBestLineFromText`
(line 123): `[a-zA-Z0-9ऀ-ॿ\s]`; everything else becomes a space. -/
def descTokenChar (c : Char) : Bool :=
  (65 ≤ c.toNat && c.toNat ≤ 90) || (97 ≤ c.toNat && c.toNat ≤ 122) ||
  (48 ≤ c.toNat && c.toNat ≤ 57) || (0x900 ≤ c.toNat && c.toNat ≤ 0x97F) || isJsWs c

/-- Keyword tokens of `pickBestLineFromText` (lines 121-127). -/
def pickTokens (desc : String) : List (List Char) :=
  ((((splitOnChar ' ' (collapseWs
    (desc.data.map (fun c => if descTokenChar c then c else ' ')))).map
      trimCl).filter (fun t => 4 ≤ t.length)).take 8)

/-- Keyword score of one line (line 133). -/
def scoreLine (tokens : List (List Char)) (lineLower : List Char) : Nat :=
  tokens.foldl (fun acc t => acc + (if containsCl lineLower (lowerCl t) then 1 else 0)) 0

/-- The best-line scan of `pickBestLineFromText` (lines 129-138): keep the
first line whose score strictly exceeds the best so far, starting from
`best = lines[0] || ''` and `bestScore = -1`. -/
def pickBestAux (tokens : List (List Char)) : List String → String → Int → String
  | [], best, _ => best
  | l :: rest, best, bestScore =>
    let score : Int := scoreLine tokens (lowerCl l.data)
    if bestScore < score then pickBestAux tokens rest l score
    else pickBestAux tokens rest best bestScore

/-- Sentence enders of the single-sentence collapse (line 143):
`[.!?؟!]|।` (U+061F Arabic question mark, U+0964 danda). -/
def evidenceSentenceEnders : List Char :=
  ['.', '!', '?', Char.ofNat 0x61F, Char.ofNat 0x964]

/-- The hard length cap of `pickBestLineFromText` (lines 149-154): take 251
characters, back up to the last space when one exists, then trim. -/
def capEvidence (candidate : List Char) : List Char :=
  if 250 < candidate.length then
    let sliced := candidate.take 251
    let lastSpace := lastIndexOfSpace sliced
    trimCl (if 0 < lastSpace then sliced.take lastSpace.toNat else sliced.take 250)
  else candidate

/-- The description-token path of `pickBestLineFromText` (lines 121-155);
note the early return `lines[0] || ''` when no tokens exist, which skips both
the single-sentence collapse and the length cap. -/
def pickByTokens (lines : List String) (descriptionCandidate : String) : String :=
  let tokens := pickTokens descriptionCandidate
  if tokens.isEmpty then lines.headD ""
  else
    let best := pickBestAux tokens lines (lines.headD "") (-1)
    let sentenceParts :=
      ((splitAfterEnders evidenceSentenceEnders best.data).map trimCl).filter
        (fun p => !p.isEmpty)
    let candidate :=
      match sentenceParts with
      | p :: _ => p
      | [] => best.data
    String.mk (capEvidence candidate)

/-- `pickBestLineFromText` (lines 110-156).  The exact-match and approximate
match paths return the found line immediately, without the single-sentence
collapse or the 250-character cap. -/
def pickBestLineFromText (inputText evidenceCandidate descriptionCandidate : String) : String :=
  let lines := splitIntoCandidateLines inputText
  let cand := stripWrappingQuotes evidenceCandidate
  let exactOrApprox : Option String :=
    if cand = "" then none
    else
      match lines.find? (fun l => containsCl l.data cand.data) with
      | some exact => some exact
      | none =>
        lines.find? (fun l =>
          containsCl (normalizeTextForCompare l).data (normalizeTextForCompare cand).data)
  match exactOrApprox with
  | some l => l
  | none => pickByTokens lines descriptionCandidate

/-- Hindi trigger class of `deterministicFixedLineFallback` (line 162);
`100%` is a plain substring alternative here. -/
def fallbackHindiTriggerA : List String :=
  ["100%", "गारंटी", "गारण्टी", "हमेशा", "कभी नहीं", "स्थायी", "तुरंत", "अचूक", "पक्का"]

/-- Second Hindi trigger class (line 167). -/
def fallbackHindiTriggerB : List String :=
  ["इलाज", "उपचार", "ठीक", "जड़ से", "दावा", "क्योर"]

/-- English trigger class (line 178), word-bounded. -/
def fallbackEnglishTriggerA : List String :=
  ["100%", "guarantee", "guaranteed", "always", "never", "instant", "permanent"]

/-- Second English trigger class (line 183), word-bounded. -/
def fallbackEnglishTriggerB : List String := ["cure", "cures", "cured"]

/-- `deterministicFixedLineFallback` (lines 158-191). -/
def deterministicFixedLineFallback (originalLine lang : String) (isOptionB : Bool) : String :=
  let line := jsTrim originalLine
  let low := (jsLower line).data
  if lang = "hi" then
    if testSubAny (fallbackHindiTriggerA.map (fun w => w.data)) low then
      if isOptionB then "परिणाम व्यक्ति के अनुसार अलग हो सकते हैं, योग्य स्वास्थ्य विशेषज्ञ से परामर्श करें।"
      else "परिणाम व्यक्ति की चिकित्सकीय स्थिति और क्लिनिकल मूल्यांकन के अनुसार अलग हो सकते हैं।"
    else if testSubAny (fallbackHindiTriggerB.map (fun w => w.data)) low then
      if isOptionB then "यह जानकारी सामान्य है और चिकित्सकीय सलाह का विकल्प नहीं है।"
      else "यह जानकारी सामान्य है; निदान और उपचार के लिए योग्य स्वास्थ्य विशेषज्ञ से परामर्श आवश्यक है।"
    else
      if isOptionB then "योग्य स्वास्थ्य विशेषज्ञ से परामर्श करने की सलाह दी जाती है।"
      else "अधिक जानकारी के लिए योग्य स्वास्थ्य विशेषज्ञ से परामर्श करें।"
  else
    if testWordAny (fallbackEnglishTriggerA.map (fun w => w.data)) low then
      if isOptionB then "Results may vary by individual and should be evaluated by a healthcare professional."
      else "Outcomes vary by individual conditions and clinical evaluation."
    else if testWordAny (fallbackEnglishTriggerB.map (fun w => w.data)) low then
      if isOptionB then "This information is general and requires consultation with a qualified healthcare provider."
      else "This information is general and is not a substitute for professional medical advice."
    else
      if isOptionB then "Individual results may vary. Please consult a qualified healthcare professional."
      else "Outcomes vary by individual conditions and clinical evaluation."

/-- `formatRecommendedFixSingle` (lines 193-214). -/
def formatRecommendedFixSingle (fixedLine fixedLineB : String) : String :=
  let optionB :=
    if fixedLineB = "" ∧ fixedLine ≠ "" then
      let line := jsTrim fixedLine
      if line.data.getLast? = some '.' then
        String.mk line.data.dropLast ++ ", as advised by a qualified healthcare professional."
      else line ++ " Individual results may vary."
    else fixedLineB
  "RECOMMENDED FIX" ++ "\n" ++ "Option A:" ++ "\n" ++ "\"" ++ jsOr fixedLine "" ++ "\"" ++
    "\n" ++ "\n" ++ "Option B:" ++ "\n" ++ "\"" ++ jsOr optionB (jsOr fixedLine "") ++ "\""

/-- `deriveGuidanceFallbackShort` (lines 216-228). -/
def deriveGuidanceFallbackShort (regulation lang : String) : String :=
  let reg := jsLower regulation
  if lang = "hi" then
    if containsCl reg.data "dpdp".data || containsCl reg.data "data".data then
      "यह पंक्ति बिना स्पष्ट उद्देश्य/सहमति के व्यक्तिगत डेटा के उपयोग का संकेत देती है, जिससे गोपनीयता और दुरुपयोग का जोखिम बढ़ता है। नियामक ढांचा डेटा-सुरक्षा और उपयोगकर्ता-संरक्षण पर केंद्रित है।"
    else
      "यह पंक्ति अतिरंजित/निश्चित परिणाम का संकेत देती है, जिससे मरीज भ्रामक अपेक्षाएँ बना सकते हैं। स्वास्थ्य विज्ञापन मानक उपभोक्ता सुरक्षा और गैर-भ्रामक संचार पर आधारित हैं।"
  else
    if containsCl reg.data "dpdp".data || containsCl reg.data "data".data then
      "This line indicates personal data handling without clear purpose/consent, which undermines privacy protections and increases misuse risk. Data protection rules focus on preventing harm from unlawful or excessive processing."
    else
      "This line presents an absolute or misleading claim that can distort patient expectations and decision-making. Healthcare advertising standards aim to prevent consumer harm from overpromising outcomes."

/-- `toTitleSeverity` (lines 395-402). -/
def toTitleSeverity (sev : String) : String :=
  let s := jsTrim (jsLower sev)
  if s = "critical" then "Critical"
  else if s = "high" then "High"
  else if s = "medium" then "Medium"
  else if s = "low" then "Low"
  else "Medium"

/-- Normalization of one issue inside `runRewriteAudit` (lines 302-346). -/
def normalizeRewriteIssue (inputText detectedLang : String) (idx : Nat) (it : RewriteIssue) :
    RewriteViolation :=
  let severity := toTitleSeverity it.severity
  let regulation := jsOr (jsTrim it.regulation) "General"
  let description := jsOr (jsTrim it.description) "Compliance issue detected"
  let evidenceLine := jsTrim (String.mk (collapseWs
    (pickBestLineFromText inputText it.evidence_line description).data))
  let guidance0 := jsTrim it.guidance
  let guidance :=
    if isGuidanceValid guidance0 then guidance0
    else deriveGuidanceFallbackShort regulation detectedLang
  let fixedLine0 := String.mk (collapseWs (jsTrim it.fixed_line).data)
  let fixedLineB0 := String.mk (collapseWs (jsTrim it.fixed_line_b).data)
  let fixedLine :=
    if isFixedLineValid fixedLine0 detectedLang then fixedLine0
    else deterministicFixedLineFallback evidenceLine detectedLang false
  let fixedLineB :=
    if isFixedLineValid fixedLineB0 detectedLang then fixedLineB0
    else deterministicFixedLineFallback evidenceLine detectedLang true
  let recommendedFix := formatRecommendedFixSingle fixedLine fixedLineB
  { severity := severity
    regulation := regulation
    description := description
    evidence := evidenceLine
    recommended_fix := recommendedFix
    problematicContent := evidenceLine
    suggestion := guidance
    solution := recommendedFix
    index := idx + 1 }

/-- The `normalizedViolations` array of `runRewriteAudit` (lines 302-347):
each issue is normalized independently, with no cross-finding comparison. -/
def runRewriteViolations (inputText : String) (issues : List RewriteIssue) :
    List RewriteViolation :=
  let detectedLang := detectContentLanguage inputText
  issues.enum.map (fun p => normalizeRewriteIssue inputText detectedLang p.1 p.2)

end AuditService

theorem jaccardOfTokens_self {A : List (List Char)} (h : A ≠ []) :
    jaccardOfTokens A A = 1 := by
  unfold jaccardOfTokens unionCount interCount
  have hlen : A.length ≠ 0 := fun hh => h (List.length_eq_zero.mp hh)
  have hfilter : A.filter (fun w => A.contains w) = A := by
    apply List.filter_eq_self.mpr
    intro a ha
    simpa using ha
  rw [hfilter]
  rw [if_neg (by simp [hlen])]
  have hu : A.length + A.length - A.length = A.length := by omega
  rw [hu, if_neg hlen]
  exact div_self (by exact_mod_cast hlen)

/-! ## Claim C5 — cross-finding uniqueness -/

/-- A well-formed model issue whose guidance and fixes pass the per-issue
validity gates of the rewrite path. -/
def repeatedIssue : AuditService.RewriteIssue :=
  { severity := "HIGH"
    regulation := "ASCI"
    description := "Absolute claim"
    evidence_line := "Miracle cure guaranteed for everyone."
    guidance := "Patients could form unrealistic expectations."
    fixed_line := "Wellness support is available for everyone."
    fixed_line_b := "Results depend on individual circumstances." }

/-- The audited input text for the duplicate-guidance counterexample. -/
def repeatInput : String := "Miracle cure guaranteed for everyone. Consult our experts today."

/-- The duplicated guidance text of the counterexample. -/
def dupGuidance : String := "Patients could form unrealistic expectations."

/-- The duplicated formatted fix of the counterexample. -/
def dupFix : String :=
  "RECOMMENDED FIX\nOption A:\n\"Wellness support is available for everyone.\"\n\nOption B:\n\"Results depend on individual circumstances.\""

/-- C5 (counterexample): the rewrite path (`auditText` → `runRewriteAudit`)
performs no cross-finding comparison at all, so a completed result can carry
two findings with identical guidance and identical fix — token-set similarity
1, not strictly below 0.40. -/
theorem cross_finding_duplicate_counterexample :
    (AuditService.runRewriteViolations repeatInput [repeatedIssue, repeatedIssue]).map
        (fun v => (v.suggestion, v.solution, v.index)) =
      [(dupGuidance, dupFix, 1), (dupGuidance, dupFix, 2)] ∧
    AuditService.jaccardSimilarity dupGuidance dupGuidance = 1 ∧
    ¬ (AuditService.jaccardSimilarity dupGuidance dupGuidance < 0.40) ∧
    AuditService.jaccardSimilarity dupFix dupFix = 1 ∧
    ¬ (AuditService.jaccardSimilarity dupFix dupFix < 0.40) := by
  have hg : AuditService.jaccardSimilarity dupGuidance dupGuidance = 1 :=
    jaccardOfTokens_self (by decide)
  have hf : AuditService.jaccardSimilarity dupFix dupFix = 1 :=
    jaccardOfTokens_self (by decide)
  refine ⟨by decide, hg, by rw [hg]; norm_num, hf, by rw [hf]; norm_num⟩

/-- C5 (amended): cross-finding uniqueness below 0.40 is not enforced on the
rewrite path: `runRewriteAudit` normalizes findings independently, and any
pair of issues whose (trimmed) guidance passes `isGuidanceValid` is kept
verbatim, whatever their mutual similarity — so completed results may contain
pairs with guidance (and fix) similarity up to 1.  The openaiClient per-issue
gate flags cross-issue similarity only when strictly above 0.40, via bounded
best-effort regeneration. -/
theorem rewrite_path_keeps_duplicate_guidance (t : String)
    (i1 i2 : AuditService.RewriteIssue)
    (h1 : AuditService.isGuidanceValid (jsTrim i1.guidance) = true)
    (h2 : AuditService.isGuidanceValid (jsTrim i2.guidance) = true) :
    (AuditService.runRewriteViolations t [i1, i2]).map (fun v => v.suggestion) =
      [jsTrim i1.guidance, jsTrim i2.guidance] := by
  unfold AuditService.runRewriteViolations AuditService.normalizeRewriteIssue
  simp [List.enum, List.enumFrom, h1, h2]

/-- C5 (witness): the amended statement applied at the concrete duplicate
issue pair. -/
theorem rewrite_path_keeps_duplicate_guidance_witness :
    (AuditService.runRewriteViolations repeatInput [repeatedIssue, repeatedIssue]).map
        (fun v => v.suggestion) =
      [jsTrim repeatedIssue.guidance, jsTrim repeatedIssue.guidance] :=
  rewrite_path_keeps_duplicate_guidance repeatInput repeatedIssue repeatedIssue
    (by decide) (by decide)

/-! ## Claim C4 — evidence length bound -/

/-- A single 260-character input line (26 copies of "abcdefghi "); after
trimming, the one candidate line has 259 characters. -/
def overflowText : String := String.mk (List.replicate 26 "abcdefghi ".data).flatten

/-- A model issue whose evidence candidate occurs verbatim inside the long
input line. -/
def overflowIssue : AuditService.RewriteIssue :=
  { severity := "HIGH"
    regulation := "ASCI"
    description := "claim"
    evidence_line := "abcdefghi"
    guidance := ""
    fixed_line := ""
    fixed_line_b := "" }

/-- C4 (code bug): the exact-match path of `pickBestLineFromText` returns the
whole matched line without the documented 250-character hard cap, so a
completed rewrite-audit result can carry an evidence field of 259 characters;
the in-code comments ("Hard cap length to 250 characters", "Enforce
single-sentence, short evidence") and the prompt rules state the 250 limit as
the intent. -/
theorem evidence_length_cap_bypassed :
    ((AuditService.runRewriteViolations overflowText [overflowIssue]).map
      (fun v => v.evidence.length)) = [259] ∧
    ¬ ((259 : Nat) ≤ 250) ∧
    AuditService.pickBestLineFromText overflowText "abcdefghi" "claim" =
      String.mk (trimCl overflowText.data) := by
  refine ⟨by decide, by decide, by decide⟩

/-! ## src/services/openaiClient.js — per-issue quality gate and regeneration loop -/

/-- Case-insensitive prefix test (pattern given lower-case). -/
def isPrefixCICl : List Char → List Char → Bool
  | [], _ => true
  | _ :: _, [] => false
  | a :: as, b :: bs => a == lowerChar b && isPrefixCICl as bs

/-- Case-insensitive `\bpat\b` match at the head of `l` (pattern lower-case). -/
def wordPatHereCI (pat : List Char) (prev : Option Char) (l : List Char) : Bool :=
  isPrefixCICl pat l &&
  (isWordCharOpt prev != isWordCharOpt pat.head?) &&
  (isWordCharOpt (pat.getLast?) != isWordCharOpt (l.drop pat.length).head?)

/-- Fuel-driven global case-insensitive word-bounded replace, modelling
`.replace(/\b(p1|p2|...)\b/gi, repl)`: at every position the first matching
alternative (in source order, with boundary checks, mirroring regex
backtracking) is replaced.  The fuel starts at the text length and dominates
the number of consumed characters, so it never runs out. -/
def replaceWordAnyAux (pats : List (List Char)) (repl : List Char) :
    Nat → Option Char → List Char → List Char
  | _, _, [] => []
  | 0, _, l => l
  | fuel + 1, prev, c :: rest =>
    match pats.find? (fun p => !p.isEmpty && wordPatHereCI p prev (c :: rest)) with
    | some p =>
      repl ++ replaceWordAnyAux pats repl fuel p.getLast? ((c :: rest).drop p.length)
    | none => c :: replaceWordAnyAux pats repl fuel (some c) rest

/-- Entry point of the word-bounded global replace. -/
def replaceWordAny (pats : List (List Char)) (repl : List Char) (l : List Char) : List Char :=
  replaceWordAnyAux pats repl l.length none l

namespace OpenaiClient

/-- The parsed shape of one issue of the model JSON consumed by
`runOpenAIAudit` (absent fields are the empty string). -/
structure EmailIssue where
  severity : String
  rule_pack : String
  violation : String
  law_reference : String
  regulation : String
  evidence : String
  guidance : String
  recommended_fix : String
  recommendation : String
deriving DecidableEq

/-- `stripEnglishTranslationLine` (lines 31-38): drop every line whose
trimmed form starts with `(English translation:`. -/
def stripEnglishTranslationLine (text : String) : String :=
  jsTrim (String.mk (List.intercalate ['\n']
    ((splitOnChar '\n' text.data).filter
      (fun line => !(isPrefixCl "(English translation:".data (trimCl line))))))

/-- Tail test of `hasEnglishTranslationLine`: after the prefix, the pattern
`\s*[^)]+\)` succeeds exactly when the first closing parenthesis of the rest
sits at index at least 1. -/
def translationTailOk (rest : List Char) : Bool :=
  let upto := rest.takeWhile (fun c => !(c == ')'))
  1 ≤ upto.length && upto.length < rest.length

/-- Scan of `hasEnglishTranslationLine` (lines 40-42). -/
def hasEnglishTranslationLineAux : List Char → Bool
  | [] => false
  | l@(_ :: rest) =>
    (isPrefixCl "(English translation:".data l &&
      translationTailOk (l.drop "(English translation:".data.length)) ||
    hasEnglishTranslationLineAux rest

/-- `hasEnglishTranslationLine` (lines 40-42). -/
def hasEnglishTranslationLine (text : String) : Bool :=
  hasEnglishTranslationLineAux text.data

/-- Placeholder list of `isBadEvidence` (line 550), matched anchored and
case-insensitively against the trimmed value. -/
def badEvidenceList : List String := ["n/a", "na", "none", "null", "not available", "unknown"]

/-- `isBadEvidence` (lines 546-551). -/
def isBadEvidence (val : String) : Bool :=
  let s := jsTrim val
  if s = "" then true
  else badEvidenceList.contains (jsLower s)

/-- Generic-phrase alternatives of `isWeakRecommendation` (line 558),
with the optional groups expanded. -/
def weakRecPatterns : List String :=
  ["review policy", "review the policy", "be careful", "follow guidelines",
   "ensure compliance", "consult lawyer", "consult a lawyer", "seek legal advice",
   "please review"]

/-- `isWeakRecommendation` (lines 553-559). -/
def isWeakRecommendation (val : String) : Bool :=
  let s := jsTrim val
  if s.length < 15 then true
  else testSubAny (weakRecPatterns.map (fun w => w.data)) (jsLower s).data

/-- Generic-phrase alternatives of `isWeakGuidance` (line 566), with the
optional groups expanded. -/
def weakGuidancePatterns : List String :=
  ["be careful", "follow guidelines", "ensure compliance", "consult lawyer",
   "consult a lawyer", "seek legal advice", "please review", "noncompliant",
   "non-compliant"]

/-- `isWeakGuidance` (lines 561-567). -/
def isWeakGuidance (val : String) : Bool :=
  let s := jsTrim val
  if s.length < 25 then true
  else testSubAny (weakGuidancePatterns.map (fun w => w.data)) (jsLower s).data

/-- `deriveRulePack` (lines 569-578). -/
def deriveRulePack (lawRef : String) : String :=
  let s := (jsLower lawRef).data
  if containsCl s "dpdp".data || containsCl s "data protection".data ||
      containsCl s "personal data".data then "DPDP Act 2023"
  else if containsCl s "it act".data || containsCl s "information technology act".data then
    "IT Act 2000"
  else if containsCl s "asci".data then "ASCI Healthcare"
  else if containsCl s "magic remedies".data then "Drugs & Magic Remedies Act"
  else if containsCl s "schedule j".data || containsCl s "drugs and cosmetics".data ||
      containsCl s "rule 106".data then "Drugs & Cosmetics Act"
  else if containsCl s "national medical commission".data || containsCl s "nmc".data then
    "NMC Regulations"
  else "General"

/-- `deriveGuidanceFallback` (lines 580-597). -/
def deriveGuidanceFallback (rulePack : String) : String :=
  if rulePack = "DPDP Act 2023" then
    "DPDP requires a lawful basis (typically valid consent) for processing personal data, and mandates purpose limitation and data minimization. Handling sensitive patient or contact information without a clear purpose, notice, and consent increases risk of privacy harm, identity misuse, and regulatory penalties."
  else if rulePack = "IT Act 2000" then
    "The IT Act and associated security expectations require reasonable security practices for handling electronic records and personal information. Weak handling of identity/contact details, medical information, or credentials increases risk of unauthorized access, fraud, and consumer harm."
  else if rulePack = "ASCI Healthcare" then
    "ASCI’s healthcare advertising standards require communications to be truthful, capable of substantiation, and not misleading by exaggeration or omission. Unsubstantiated or absolute claims can cause consumers/patients to make unsafe decisions, delay proper medical care, and undermine public trust."
  else if rulePack = "Drugs & Magic Remedies Act" then
    "The Drugs and Magic Remedies Act prohibits advertisements that claim magical cures or guaranteed results for certain conditions. Such claims can mislead vulnerable patients, encourage self-medication, and create serious public health risk, attracting strict enforcement."
  else if rulePack = "Drugs & Cosmetics Act" then
    "Drugs & Cosmetics Rules (including Schedule J / Rule 106 expectations) restrict disease‑cure advertising and require claims to be supported and non-misleading. Disease treatment promises without permitted basis can mislead patients and violate statutory restrictions on therapeutic claims."
  else if rulePack = "NMC Regulations" then
    "NMC-aligned ethical standards require responsible medical communication: no inducement, no misleading therapeutic assurance, and clear separation of medical advice from marketing. Over-promising outcomes can influence patient decisions unfairly and breaches professional/ethical expectations."
  else
    "Regulators expect healthcare communications to be accurate, substantiated, and non-misleading, especially where patient outcomes or data privacy are involved. Misleading claims or weak data practices can cause real consumer harm and trigger enforcement action."

/-- Softening alternatives of the first fallback replace (line 609), in regex
backtracking order (`guaranteed?` expands greedily). -/
def softenAbsolutes : List String :=
  ["100%", "100 percent", "guaranteed", "guarantee", "sure shot", "instant", "permanent"]

/-- Alternatives of the second fallback replace (line 610). -/
def softenCures : List String := ["cure", "cures", "cured", "treats", "treatment for"]

/-- Alternative of the third fallback replace (line 611). -/
def softenSideEffects : List String := ["no side effects"]

/-- `deriveRecommendationFallback` (lines 599-629); `rulePack` is computed by
the source but unused in the returned text. -/
def deriveRecommendationFallback (detectedLang : String) (issue : EmailIssue) : String :=
  let _rulePack := jsOr (jsTrim issue.rule_pack)
    (deriveRulePack (jsOr issue.law_reference issue.regulation))
  let rawEvidence := issue.evidence
  let evidenceBody :=
    if !(detectedLang == "en") then stripEnglishTranslationLine rawEvidence else rawEvidence
  let ev := jsTrim (String.mk
    (((evidenceBody.data.dropWhile AuditService.wrapQuoteClass).reverse.dropWhile
      AuditService.wrapQuoteClass).reverse))
  let base := if 0 < ev.length then ev else issue.violation
  let s1 := replaceWordAny (softenAbsolutes.map (fun w => w.data)) "may".data base.data
  let s2 := replaceWordAny (softenCures.map (fun w => w.data)) "supports".data s1
  let s3 := replaceWordAny (softenSideEffects.map (fun w => w.data))
    "as advised by a qualified professional".data s2
  let softened := jsTrim (String.mk (collapseWs s3))
  let opt1En :=
    if 0 < softened.length then softened
    else "Results may vary. Please consult a qualified healthcare professional."
  let opt2En := "Results may vary by individual. This information is not a substitute for professional medical advice."
  if detectedLang = "hi" then
    "RECOMMENDED FIX\nOption A:\n\"परिणाम व्यक्ति के अनुसार अलग हो सकते हैं।\"\n\nOption B:\n\"यह जानकारी सामान्य है और चिकित्सकीय सलाह का विकल्प नहीं है।\"\n(English translation: Option A: Results may vary by individual. Option B: This information is general and not a substitute for medical advice.)"
  else
    "RECOMMENDED FIX\nOption A:\n\"" ++ opt1En ++ "\"\n\nOption B:\n\"" ++ opt2En ++ "\""

/-- The action-verb alternation of `hasForbiddenGuidanceVerbs` (line 726),
in source order. -/
def forbiddenGuidanceVerbs : List String :=
  ["remove", "removed", "removing", "add", "added", "adding", "ensure", "ensures",
   "ensuring", "include", "includes", "including", "change", "changed", "changing", "provide",
   "provides", "providing", "submit", "submits", "submitting", "implement", "implements", "implementing",
   "modify", "modifies", "modifying", "apply", "applies", "applying", "create", "creates",
   "creating", "delete", "deletes", "deleting", "replace", "replaces", "replacing", "insert",
   "inserts", "inserting", "document", "documents", "documenting", "obtain", "obtains", "obtaining",
   "restrict", "restricts", "restricting", "verify", "verifies", "verifying", "check", "checks",
   "checking", "validate", "validates", "validating", "approve", "approves", "approving", "request",
   "requests", "requesting", "send", "sends", "sending", "receive", "receives", "receiving",
   "process", "processes", "processing", "handle", "handles", "handling", "manage", "manages",
   "managing", "maintain", "maintains", "maintaining", "store", "stores", "storing", "secure",
   "secures", "securing", "protect", "protects", "protecting", "access", "accesses", "accessing",
   "share", "shares", "sharing", "disclose", "discloses", "disclosing", "notify", "notifies",
   "notifying", "inform", "informs", "informing", "communicate", "communicates", "communicating", "publish",
   "publishes", "publishing", "distribute", "distributes", "distributing", "display", "displays", "displaying",
   "show", "shows", "showing", "present", "presents", "presenting", "indicate", "indicates",
   "indicating", "specify", "specifies", "specifying", "state", "states", "stating", "declare",
   "declares", "declaring", "claim", "claims", "claiming", "assert", "asserts", "asserting",
   "guarantee", "guarantees", "guaranteeing", "promise", "promises", "promising", "offer", "offers",
   "offering", "deliver", "delivers", "delivering", "perform", "performs", "performing", "execute",
   "executes", "executing", "complete", "completes", "completing", "finish", "finishes", "finishing",
   "start", "starts", "starting", "begin", "begins", "beginning", "initiate", "initiates",
   "initiating", "launch", "launches", "launching", "establish", "establishes", "establishing", "set",
   "sets", "setting", "configure", "configures", "configuring", "adjust", "adjusts", "adjusting",
   "adapt", "adapts", "adapting", "customize", "customizes", "customizing", "personalize", "personalizes",
   "personalizing", "optimize", "optimizes", "optimizing", "improve", "improves", "improving", "enhance",
   "enhances", "enhancing", "upgrade", "upgrades", "upgrading", "update", "updates", "updating",
   "fix", "fixes", "fixing", "repair", "repairs", "repairing", "correct", "corrects",
   "correcting", "resolve", "resolves", "resolving", "address", "addresses", "addressing", "solve",
   "solves", "solving", "prevent", "prevents", "preventing", "avoid", "avoids", "avoiding",
   "eliminate", "eliminates", "eliminating", "reduce", "reduces", "reducing", "minimize", "minimizes",
   "minimizing", "maximize", "maximizes", "maximizing", "increase", "increases", "increasing", "decrease",
   "decreases", "decreasing", "expand", "expands", "expanding", "extend", "extends", "extending",
   "limit", "limits", "limiting", "restrict", "restricts", "restricting", "allow", "allows",
   "allowing", "permit", "permits", "permitting", "enable", "enables", "enabling", "disable",
   "disables", "disabling", "activate", "activates", "activating", "deactivate", "deactivates", "deactivating",
   "turn", "turns", "turning", "switch", "switches", "switching", "toggle", "toggles",
   "toggling", "open", "opens", "opening", "close", "closes", "closing", "lock",
   "locks", "locking", "unlock", "unlocks", "unlocking", "save", "saves", "saving",
   "load", "loads", "loading", "export", "exports", "exporting", "import", "imports",
   "importing", "upload", "uploads", "uploading", "download", "downloads", "downloading", "copy",
   "copies", "copying", "paste", "pastes", "pasting", "cut", "cuts", "cutting",
   "move", "moves", "moving", "transfer", "transfers", "transferring", "assign", "assigns",
   "assigning", "allocate", "allocates", "allocating", "distribute", "distributes", "distributing", "spread",
   "spreads", "spreading", "divide", "divides", "dividing", "split", "splits", "splitting",
   "merge", "merges", "merging", "combine", "combines", "combining", "join", "joins",
   "joining", "connect", "connects", "connecting", "link", "links", "linking", "attach",
   "attaches", "attaching", "detach", "detaches", "detaching", "separate", "separates", "separating",
   "isolate", "isolates", "isolating", "integrate", "integrates", "integrating", "synchronize", "synchronizes",
   "synchronizing", "coordinate", "coordinates", "coordinating", "align", "aligns", "aligning", "match",
   "matches", "matching", "compare", "compares", "comparing", "contrast", "contrasts", "contrasting",
   "analyze", "analyzes", "analyzing", "evaluate", "evaluates", "evaluating", "assess", "assesses",
   "assessing", "measure", "measures", "measuring", "calculate", "calculates", "calculating", "compute",
   "computes", "computing", "determine", "determines", "determining", "identify", "identifies", "identifying",
   "recognize", "recognizes", "recognizing", "detect", "detects", "detecting", "discover", "discovers",
   "discovering", "find", "finds", "finding", "locate", "locates", "locating", "search",
   "searches", "searching", "filter", "filters", "filtering", "sort", "sorts", "sorting",
   "organize", "organizes", "organizing", "arrange", "arranges", "arranging", "structure", "structures",
   "structuring", "format", "formats", "formatting", "style", "styles", "styling", "design",
   "designs", "designing", "develop", "develops", "developing", "build", "builds", "building",
   "construct", "constructs", "constructing", "create", "creates", "creating", "generate", "generates",
   "generating", "produce", "produces", "producing", "manufacture", "manufactures", "manufacturing", "make",
   "makes", "making", "do", "does", "doing"]

/-- `hasForbiddenGuidanceVerbs` (lines 722-728). -/
def hasForbiddenGuidanceVerbs (g : String) : Bool :=
  testWordAny (forbiddenGuidanceVerbs.map (fun w => w.data)) (normalizeTextForCompare g).data

/-- Alternation of `hasDisallowedReasoningLanguageInFix` (line 733), with
`rules?` expanded greedily. -/
def reasoningInFixWords : List String :=
  ["because", "so that", "in order to", "to avoid", "to prevent", "to reduce",
   "this will", "this helps", "so you", "so users", "benefit", "benefits", "risk",
   "risks", "harm", "harms", "mislead", "misleading", "regulator", "regulatory",
   "intent", "penalty", "enforcement", "compliance", "guideline", "rules", "rule"]

/-- `hasDisallowedReasoningLanguageInFix` (lines 730-734). -/
def hasDisallowedReasoningLanguageInFix (f : String) : Bool :=
  testWordAny (reasoningInFixWords.map (fun w => w.data)) (normalizeTextForCompare f).data

/-- Alternation of `hasInstructionVerbInRewrite` (line 739). -/
def instructionVerbsInRewrite : List String :=
  ["remove", "delete", "ensure", "add", "include", "revise", "rewrite", "insert",
   "limit", "restrict", "verify", "document", "obtain", "disable", "update",
   "configure", "avoid", "prevent", "disclose"]

/-- `hasInstructionVerbInRewrite` (lines 736-740). -/
def hasInstructionVerbInRewrite (f : String) : Bool :=
  testWordAny (instructionVerbsInRewrite.map (fun w => w.data)) (normalizeTextForCompare f).data

/-- Alternation of `hasWhyLanguageInFix` (line 796). -/
def whyWordsInFix : List String :=
  ["because", "so that", "in order to", "to avoid", "to prevent", "to reduce",
   "this violates", "regulators", "regulatory", "intent", "harm", "risk",
   "misleading", "benefit", "this will", "this helps"]

/-- `hasWhyLanguageInFix` (lines 794-797). -/
def hasWhyLanguageInFix (f : String) : Bool :=
  testWordAny (whyWordsInFix.map (fun w => w.data)) (normalizeTextForCompare f).data

/-- Alternation of `hasIntentOrHarmLanguageInFix` (line 802); note that the
source alternative `penalt` carries its own trailing `\b`, so it matches the
bare word "penalt" only. -/
def intentHarmWordsInFix : List String :=
  ["regulator", "regulatory", "intent", "harm", "risk", "mislead", "misleading",
   "patient", "patients", "consumer", "consumers", "public", "unsafe", "penalt",
   "enforcement", "benefit", "benefits", "helps", "helpful", "compliance"]

/-- `hasIntentOrHarmLanguageInFix` (lines 799-803). -/
def hasIntentOrHarmLanguageInFix (f : String) : Bool :=
  testWordAny (intentHarmWordsInFix.map (fun w => w.data)) (normalizeTextForCompare f).data


end OpenaiClient

namespace OpenaiClient

/-- Does `Option\s*(?:X)\s*[:\-]` match (case-insensitively) at the head of
`l`, for label characters `letters`? -/
def matchOptionLabel (letters : List Char) (l : List Char) : Bool :=
  if isPrefixCICl "option".data l then
    match (l.drop 6).dropWhile isJsWs with
    | c :: r2 =>
      if letters.contains (lowerChar c) then
        match r2.dropWhile isJsWs with
        | d :: _ => d == ':' || d == '-'
        | [] => false
      else false
    | [] => false
  else false

/-- Consume `Option\s*(?:X)\s*[:\-]\s*["']?` at the head of `l`, returning
the suffix where the lazy capture group starts. -/
def matchOptionHeader (letters : List Char) (l : List Char) : Option (List Char) :=
  if isPrefixCICl "option".data l then
    match (l.drop 6).dropWhile isJsWs with
    | c :: r2 =>
      if letters.contains (lowerChar c) then
        match r2.dropWhile isJsWs with
        | d :: r4 =>
          if d == ':' || d == '-' then
            let r5 := r4.dropWhile isJsWs
            some (match r5 with
              | q :: r6 => if q == '"' || q == squote then r6 else r5
              | [] => r5)
          else none
        | [] => none
      else none
    | [] => none
  else none

/-- The look-ahead `\n\s*Option\s*(?:B|2)\s*[:\-]` of the Option-A capture. -/
def lookaheadOptionB : List Char → Bool
  | '\n' :: rest => matchOptionLabel ['b', '2'] (rest.dropWhile isJsWs)
  | _ => false

/-- The look-ahead `\n\s*\(English translation:`. -/
def lookaheadTranslation : List Char → Bool
  | '\n' :: rest => isPrefixCl "(English translation:".data (rest.dropWhile isJsWs)
  | _ => false

/-- The lazy capture `([\s\S]*?)["']?(?=LA)`: grow the capture one character
at a time; at each length first try to consume a closing quote before the
look-ahead, then the look-ahead directly (mirroring regex backtracking
order).  The look-ahead predicate includes the `$` alternative, so it holds
on the empty suffix and the loop always terminates with a capture. -/
def lazyCapture (la : List Char → Bool) : List Char → List Char → List Char
  | acc, [] => acc.reverse
  | acc, c :: rest =>
    if (c == '"' || c == squote) && la rest then acc.reverse
    else if la (c :: rest) then acc.reverse
    else lazyCapture la (c :: acc) rest

/-- Scan for the first position where the Option header matches and return
the lazy capture from there (the regex `exec` semantics: because the
look-ahead has an end-of-input alternative, the full pattern matches at
exactly the positions where the header matches). -/
def findOptionCapture (letters : List Char) (la : List Char → Bool) :
    List Char → Option (List Char)
  | [] => none
  | l@(_ :: rest) =>
    match matchOptionHeader letters l with
    | some contentStart => some (lazyCapture la [] contentStart)
    | none => findOptionCapture letters la rest

/-- The `^["']+|["']+$` strip applied to each captured option (line 752). -/
def stripEdgeQuotes (l : List Char) : List Char :=
  ((l.dropWhile (fun c => c == '"' || c == squote)).reverse.dropWhile
    (fun c => c == '"' || c == squote)).reverse

/-- `parseRewriteOptions` (lines 742-757). -/
def parseRewriteOptions (fixText : String) : Option (String × String) :=
  let raw := jsTrim fixText
  if raw = "" then none
  else
    let m1 := findOptionCapture ['a', '1']
      (fun l => lookaheadOptionB l || lookaheadTranslation l || l.isEmpty) raw.data
    let m2 := findOptionCapture ['b', '2']
      (fun l => lookaheadTranslation l || l.isEmpty) raw.data
    match m1, m2 with
    | some c1, some c2 =>
      let opt1 := String.mk (stripEdgeQuotes (trimCl c1))
      let opt2 := String.mk (stripEdgeQuotes (trimCl c2))
      if opt1 = "" ∨ opt2 = "" then none
      else some (opt1, opt2)
    | _, _ => none

/-- Kernel-computable strict threshold test
`threshNum/threshDen < jaccardSimilarity a b` by cross-multiplication on the
integer counts (`Rat` arithmetic does not reduce inside the kernel);
`jaccardGtB_iff` proves it equal to the `ℚ` comparison. -/
def jaccardGtB (threshNum threshDen : Nat) (a b : String) : Bool :=
  if (jaccardTokens a).length = 0 ∨ (jaccardTokens b).length = 0 then false
  else if unionCount (jaccardTokens a) (jaccardTokens b) = 0 then false
  else decide (threshNum * unionCount (jaccardTokens a) (jaccardTokens b) <
    interCount (jaccardTokens a) (jaccardTokens b) * threshDen)

/-- Kernel-computable threshold test `threshNum/threshDen ≤ jaccard`. -/
def jaccardGeB (threshNum threshDen : Nat) (a b : String) : Bool :=
  if (jaccardTokens a).length = 0 ∨ (jaccardTokens b).length = 0 then false
  else if unionCount (jaccardTokens a) (jaccardTokens b) = 0 then false
  else decide (threshNum * unionCount (jaccardTokens a) (jaccardTokens b) ≤
    interCount (jaccardTokens a) (jaccardTokens b) * threshDen)

theorem jaccardGtB_iff (threshNum threshDen : Nat) (hn : 0 < threshNum)
    (hd : 0 < threshDen) (a b : String) :
    jaccardGtB threshNum threshDen a b = true ↔
      (threshNum : ℚ) / (threshDen : ℚ) < jaccardSimilarity a b := by
  have hq : (0 : ℚ) < (threshNum : ℚ) / (threshDen : ℚ) := by positivity
  unfold jaccardGtB jaccardSimilarity jaccardOfTokens
  split_ifs with h1 h2
  · simp only [Bool.false_eq_true, false_iff, not_lt]
    exact le_of_lt hq
  · simp only [Bool.false_eq_true, false_iff, not_lt]
    exact le_of_lt hq
  · rw [decide_eq_true_iff]
    rw [div_lt_div_iff₀ (by positivity) (by exact_mod_cast Nat.pos_of_ne_zero h2)]
    constructor
    · intro h
      exact_mod_cast h
    · intro h
      exact_mod_cast h

theorem jaccardGeB_iff (threshNum threshDen : Nat) (hn : 0 < threshNum)
    (hd : 0 < threshDen) (a b : String) :
    jaccardGeB threshNum threshDen a b = true ↔
      (threshNum : ℚ) / (threshDen : ℚ) ≤ jaccardSimilarity a b := by
  have hq : (0 : ℚ) < (threshNum : ℚ) / (threshDen : ℚ) := by positivity
  unfold jaccardGeB jaccardSimilarity jaccardOfTokens
  split_ifs with h1 h2
  · simp only [Bool.false_eq_true, false_iff, not_le]
    exact hq
  · simp only [Bool.false_eq_true, false_iff, not_le]
    exact hq
  · rw [decide_eq_true_iff]
    rw [div_le_div_iff₀ (by positivity) (by exact_mod_cast Nat.pos_of_ne_zero h2)]
    constructor
    · intro h
      exact_mod_cast h
    · intro h
      exact_mod_cast h

/-- `isRewriteOptionsFix` (lines 759-792); similarity thresholds 0.10 and
0.90 are evaluated by the cross-multiplied comparators (1/10 and 9/10). -/
def isRewriteOptionsFix (detectedLang : String) (fixText evidenceText : String) : Bool :=
  let text := jsTrim fixText
  if text = "" then false
  else
    let needsEnglishTranslation := !(detectedLang == "en")
    if needsEnglishTranslation && !hasEnglishTranslationLine text then false
    else
      let mainBody := if needsEnglishTranslation then stripEnglishTranslationLine text else text
      match parseRewriteOptions mainBody with
      | none => false
      | some (opt1, opt2) =>
        if detectedLang == "hi" && decide (countDevanagari mainBody.data < 10) then false
        else if hasDisallowedReasoningLanguageInFix mainBody then false
        else if hasInstructionVerbInRewrite mainBody then false
        else
          let ev := evidenceText
          if !jaccardGeB 1 10 ev opt1 || !jaccardGeB 1 10 ev opt2 then false
          else if jaccardGtB 9 10 ev opt1 || jaccardGtB 9 10 ev opt2 then false
          else true

end OpenaiClient

namespace OpenaiClient

/-- The verdict computed by `violatesSeparation` (lines 815-860); the raw
overlap values are kept only for logging in the source, so the structure
carries the five boolean flags. -/
structure SeparationVerdict where
  badEvidence : Bool
  weakGuidance : Bool
  weakFix : Bool
  tooSimilarGuidanceFix : Bool
  tooSimilarEvidenceFix : Bool

/-- `violatesSeparation` (lines 815-860).  Threshold comparisons
`overlapEG >= 0.35`, `overlapGF > 0.75` and `overlapEF > 0.90` are evaluated
by the cross-multiplied comparators (7/20, 3/4, 9/10), which `jaccardGeB_iff`
and `jaccardGtB_iff` prove equal to the `ℚ` comparisons. -/
def violatesSeparation (detectedLang : String) (issue : EmailIssue) : SeparationVerdict :=
  let evidence := issue.evidence
  let guidance := issue.guidance
  let fix := jsOr issue.recommended_fix issue.recommendation
  let needsEnglishTranslation := !(detectedLang == "en")
  { badEvidence := isBadEvidence issue.evidence
    weakGuidance :=
      isWeakGuidance issue.guidance ||
      hasForbiddenGuidanceVerbs guidance ||
      jaccardGeB 7 20 evidence guidance ||
      (needsEnglishTranslation && !hasEnglishTranslationLine guidance) ||
      (detectedLang == "hi" &&
        decide (countDevanagari (stripEnglishTranslationLine guidance).data < 10))
    weakFix :=
      isWeakRecommendation fix ||
      hasDisallowedReasoningLanguageInFix fix ||
      hasWhyLanguageInFix fix ||
      hasIntentOrHarmLanguageInFix fix ||
      !isRewriteOptionsFix detectedLang fix evidence ||
      (needsEnglishTranslation && !hasEnglishTranslationLine fix) ||
      (detectedLang == "hi" &&
        decide (countDevanagari (stripEnglishTranslationLine fix).data < 10))
    tooSimilarGuidanceFix := jaccardGtB 3 4 guidance fix
    tooSimilarEvidenceFix := jaccardGtB 9 10 evidence fix }

/-- The cross-issue repetition guard of the attempt loop (lines 1018-1020):
flagged only when a previously accepted guidance or fix has similarity
strictly above 0.40 (2/5) with the current one. -/
def crossRepeatCheck (accepted : List (String × String)) (issue : EmailIssue) : Bool :=
  accepted.any (fun a => jaccardGtB 2 5 a.1 issue.guidance) ||
  accepted.any (fun a => jaccardGtB 2 5 a.2 issue.recommended_fix)

/-- The rule-pack recomputation shared by both regeneration helpers
(lines 883 and 942). -/
def regenRulePack (issue : EmailIssue) : String :=
  jsOr (jsTrim issue.rule_pack) (deriveRulePack (jsOr issue.law_reference issue.regulation))

/-- Outcome of a successful `regenerateOnlyFix` call (lines 881-938): the
model reply supplies only `recommended_fix`; evidence is locked, the guidance
is re-installed trimmed. -/
def applyRegenerateOnlyFix (issue : EmailIssue) (reply : String × String) : EmailIssue :=
  { issue with
    rule_pack := regenRulePack issue
    guidance := jsTrim issue.guidance
    recommended_fix := jsTrim reply.2 }

/-- Outcome of a successful `regenerateOneIssue` call (lines 940-999): the
model reply supplies new guidance and fix; evidence is locked. -/
def applyRegenerateOneIssue (issue : EmailIssue) (reply : String × String) : EmailIssue :=
  { issue with
    rule_pack := regenRulePack issue
    guidance := jsTrim reply.1
    recommended_fix := jsTrim reply.2 }

/-- The fix-only regeneration guard at the top of an attempt (lines
1023-1036): fires only when guidance and fix are too similar while evidence
and guidance are themselves fine.  `Sum.inl` is a `break` out of the loop,
`Sum.inr` continues with the next phase of the attempt. -/
def guardPhase (detectedLang : String) (oracle : Nat → Option (String × String))
    (calls : Nat) (issue : EmailIssue) : (EmailIssue × Nat) ⊕ (EmailIssue × Nat) :=
  let v := violatesSeparation detectedLang issue
  if v.tooSimilarGuidanceFix && !v.badEvidence && !v.weakGuidance then
    match oracle calls with
    | some reply =>
      let issue1 := applyRegenerateOnlyFix issue reply
      let vAfter := violatesSeparation detectedLang issue1
      if !vAfter.tooSimilarGuidanceFix && !vAfter.weakFix then Sum.inl (issue1, calls + 1)
      else Sum.inr (issue1, calls + 1)
    | none => Sum.inr (issue, calls + 1)
  else Sum.inr (issue, calls)

/-- The full-regeneration phase of an attempt (lines 1038-1053): when any
quality flag of the original issue (or the cross-issue repetition guard) is
raised, one `regenerateOneIssue` call is made; a throwing call breaks with
the current issue. -/
def regenPhase (oracle : Nat → Option (String × String)) (needRegen : Bool)
    (p : EmailIssue × Nat) : (EmailIssue × Nat) ⊕ (EmailIssue × Nat) :=
  if !needRegen then Sum.inl p
  else
    match oracle p.2 with
    | some reply => Sum.inr (applyRegenerateOneIssue p.1 reply, p.2 + 1)
    | none => Sum.inl (p.1, p.2 + 1)

/-- One iteration of the per-issue attempt loop (lines 1014-1053), with the
external model as an oracle indexed by the number of calls made so far
(`none` models a call that throws).  `Sum.inl` is a `break` out of the loop,
`Sum.inr` continues with the next attempt.  The quality flags driving
`regenPhase` are those of the issue as it stood at the top of the attempt,
exactly as in the source. -/
def attemptOnce (detectedLang : String) (oracle : Nat → Option (String × String))
    (accepted : List (String × String)) (calls : Nat) (issue : EmailIssue) :
    (EmailIssue × Nat) ⊕ (EmailIssue × Nat) :=
  let v := violatesSeparation detectedLang issue
  let needRegen := v.badEvidence || v.weakGuidance || v.weakFix ||
    v.tooSimilarEvidenceFix || crossRepeatCheck accepted issue
  match guardPhase detectedLang oracle calls issue with
  | Sum.inl done => Sum.inl done
  | Sum.inr p => regenPhase oracle needRegen p

/-- The bounded attempt loop (`for attempt = 1..4`, lines 1014-1054). -/
def attemptLoop (detectedLang : String) (oracle : Nat → Option (String × String))
    (accepted : List (String × String)) :
    Nat → Nat → EmailIssue → EmailIssue × Nat
  | 0, calls, issue => (issue, calls)
  | fuel + 1, calls, issue =>
    match attemptOnce detectedLang oracle accepted calls issue with
    | Sum.inl done => done
    | Sum.inr (issue1, calls1) => attemptLoop detectedLang oracle accepted fuel calls1 issue1

/-- The forced-distinct fallback installed when the similarity backstop
cannot be satisfied (lines 1069-1083): deterministic local texts, no model
call. -/
def fallbackDistinct (detectedLang : String) (issue : EmailIssue) : EmailIssue :=
  let rp := jsOr (jsTrim issue.rule_pack) "General"
  { issue with
    guidance := deriveGuidanceFallback rp
    recommended_fix := deriveRecommendationFallback detectedLang { issue with rule_pack := rp } }

/-- The final guidance/fix similarity backstop (lines 1056-1085): when the
overlap still exceeds 0.75, one more fix-only regeneration is attempted and,
failing that, the deterministic local fallbacks are installed. -/
def similarityBackstop (detectedLang : String) (oracle : Nat → Option (String × String))
    (r2 : EmailIssue × Nat) : EmailIssue × Nat :=
  if jaccardGtB 3 4 r2.1.guidance r2.1.recommended_fix then
    match oracle r2.2 with
    | some reply =>
      let regenerated := applyRegenerateOnlyFix r2.1 reply
      if !jaccardGtB 3 4 regenerated.guidance regenerated.recommended_fix &&
          isRewriteOptionsFix detectedLang regenerated.recommended_fix regenerated.evidence then
        (regenerated, r2.2 + 1)
      else (fallbackDistinct detectedLang r2.1, r2.2 + 1)
    | none => (fallbackDistinct detectedLang r2.1, r2.2 + 1)
  else r2

/-- The rewrite-options format validation (lines 1087-1111): one more
fix-only regeneration when the fix is not in the two-option format, with the
deterministic fallback fix as the terminal resort. -/
def rewriteOptionsValidation (detectedLang : String)
    (oracle : Nat → Option (String × String)) (r3 : EmailIssue × Nat) : EmailIssue × Nat :=
  if isRewriteOptionsFix detectedLang r3.1.recommended_fix r3.1.evidence then r3
  else
    match oracle r3.2 with
    | some reply =>
      let issueR := applyRegenerateOnlyFix r3.1 reply
      if isRewriteOptionsFix detectedLang issueR.recommended_fix issueR.evidence then
        (issueR, r3.2 + 1)
      else
        let rp := jsOr (jsTrim issueR.rule_pack) "General"
        let fallbackFix := deriveRecommendationFallback detectedLang { issueR with rule_pack := rp }
        ({ issueR with recommended_fix := fallbackFix }, r3.2 + 1)
    | none =>
      let rp := jsOr (jsTrim r3.1.rule_pack) "General"
      let fallbackFix := deriveRecommendationFallback detectedLang { r3.1 with rule_pack := rp }
      ({ r3.1 with recommended_fix := fallbackFix }, r3.2 + 1)

/-- The complete per-issue correction process of `runOpenAIAudit`
(lines 1007-1118): rule-pack defaulting, the 4-attempt loop, the
guidance/fix similarity backstop (threshold 0.75), and the rewrite-options
format validation, returning the final issue and the number of model calls
requested. -/
def processIssue (detectedLang : String) (oracle : Nat → Option (String × String))
    (issue0 : EmailIssue) (accepted : List (String × String)) : EmailIssue × Nat :=
  let lawRef := jsOr issue0.law_reference issue0.regulation
  let issue1 := { issue0 with rule_pack := jsOr (jsTrim issue0.rule_pack) (deriveRulePack lawRef) }
  rewriteOptionsValidation detectedLang oracle
    (similarityBackstop detectedLang oracle (attemptLoop detectedLang oracle accepted 4 0 issue1))

end OpenaiClient

namespace OpenaiClient

/-- Model-call counter of an attempt-loop step outcome, whichever side of the
break/continue sum it lies on. -/
def regenCalls : (EmailIssue × Nat) ⊕ (EmailIssue × Nat) → Nat
  | Sum.inl p => p.2
  | Sum.inr p => p.2

theorem guardPhase_calls_le (d : String) (o : Nat → Option (String × String))
    (calls : Nat) (issue : EmailIssue) :
    regenCalls (guardPhase d o calls issue) ≤ calls + 1 := by
  unfold guardPhase
  dsimp only
  split_ifs with h1
  · rcases ho : o calls with _ | reply
    · simp [ho, regenCalls]
    · simp only [ho]
      split_ifs with h2 <;> simp [regenCalls]
  · simp [regenCalls]

theorem regenPhase_calls_le (o : Nat → Option (String × String)) (b : Bool)
    (p : EmailIssue × Nat) : regenCalls (regenPhase o b p) ≤ p.2 + 1 := by
  unfold regenPhase
  split_ifs with h1
  · simp [regenCalls]
  · rcases ho : o p.2 with _ | reply <;> simp [ho, regenCalls]

theorem attemptOnce_calls_le (d : String) (o : Nat → Option (String × String))
    (a : List (String × String)) (calls : Nat) (issue : EmailIssue) :
    regenCalls (attemptOnce d o a calls issue) ≤ calls + 2 := by
  unfold attemptOnce
  dsimp only
  have hgle := guardPhase_calls_le d o calls issue
  rcases hg : guardPhase d o calls issue with ⟨i1, c1⟩ | ⟨i1, c1⟩ <;>
    rw [hg] at hgle <;> simp only [regenCalls] at hgle <;> dsimp only
  · simp only [regenCalls]
    omega
  · refine le_trans (regenPhase_calls_le o _ (i1, c1)) ?_
    dsimp only
    omega

theorem attemptLoop_calls_le (d : String) (o : Nat → Option (String × String))
    (a : List (String × String)) :
    ∀ (fuel calls : Nat) (issue : EmailIssue),
      (attemptLoop d o a fuel calls issue).2 ≤ calls + 2 * fuel := by
  intro fuel
  induction fuel with
  | zero =>
    intro calls issue
    simp [attemptLoop]
  | succ n ih =>
    intro calls issue
    have hb := attemptOnce_calls_le d o a calls issue
    rcases hres : attemptOnce d o a calls issue with ⟨i1, c1⟩ | ⟨i1, c1⟩ <;>
      rw [hres] at hb <;> simp only [regenCalls] at hb <;>
      simp only [attemptLoop, hres]
    · omega
    · have h2 := ih c1 i1
      omega

theorem similarityBackstop_calls_le (d : String) (o : Nat → Option (String × String))
    (r : EmailIssue × Nat) : (similarityBackstop d o r).2 ≤ r.2 + 1 := by
  unfold similarityBackstop
  repeat' split
  all_goals (try dsimp only)
  all_goals (try split_ifs)
  all_goals (try dsimp only)
  all_goals omega

theorem rewriteOptionsValidation_calls_le (d : String) (o : Nat → Option (String × String))
    (r : EmailIssue × Nat) : (rewriteOptionsValidation d o r).2 ≤ r.2 + 1 := by
  unfold rewriteOptionsValidation
  repeat' split
  all_goals (try dsimp only)
  all_goals (try split_ifs)
  all_goals (try dsimp only)
  all_goals omega

theorem tail_calls_le (d : String) (o : Nat → Option (String × String))
    (r : EmailIssue × Nat) (h : r.2 ≤ 8) :
    (rewriteOptionsValidation d o (similarityBackstop d o r)).2 ≤ 10 := by
  have h2 := similarityBackstop_calls_le d o r
  have h3 := rewriteOptionsValidation_calls_le d o (similarityBackstop d o r)
  omega

theorem processIssue_calls_le (d : String) (o : Nat → Option (String × String))
    (issue0 : EmailIssue) (accepted : List (String × String)) :
    (processIssue d o issue0 accepted).2 ≤ 10 := by
  unfold processIssue
  dsimp only
  exact tail_calls_le d o _ (le_trans (attemptLoop_calls_le d o accepted 4 0 _) (by norm_num))

end OpenaiClient

/-- A weak email finding: evidence is genuine, but the guidance is shorter
than 25 characters and the fix shorter than 15, so every attempt flags it
for full regeneration. -/
def c8Issue : OpenaiClient.EmailIssue :=
  { severity := "HIGH"
    rule_pack := "General"
    violation := "Implied health benefit without substantiation"
    law_reference := "ASCI Healthcare"
    regulation := ""
    evidence := "our product supports daily wellness routines"
    guidance := "too short"
    recommended_fix := "nothing much"
    recommendation := "" }

/-- The two-option rewrite text returned by the model on its fifth call,
which passes the rewrite-options format check against the evidence of
`c8Issue`. -/
def c8FixReply : String :=
  "RECOMMENDED FIX\nOption A:\n\"our product supports daily wellness\"\n\nOption B:\n\"this product complements wellness routines\""

/-- A model behaviour for `c8Issue`: three regenerations repeat the weak
guidance and fix, the fourth returns identical guidance and fix (forcing the
0.75 similarity backstop), and the fifth - the backstop fix-only call -
finally returns a valid two-option fix. -/
def c8Oracle : Nat → Option (String × String)
  | 0 => some ("too short", "nothing much")
  | 1 => some ("too short", "nothing much")
  | 2 => some ("too short", "nothing much")
  | 3 => some ("look to the sea for the answer tomorrow",
               "look to the sea for the answer tomorrow")
  | 4 => some ("", c8FixReply)
  | _ => none

/-- C8 (counterexample): on `c8Issue` under `c8Oracle` the per-issue
correction process of `runOpenAIAudit` requests five model re-invocations -
four inside the `for attempt = 1..4` loop and a fifth from the guidance/fix
similarity backstop - so the number of regeneration calls for one finding
exceeds the configured maximum of 4. -/
theorem regeneration_attempts_counterexample :
    (OpenaiClient.processIssue "en" c8Oracle c8Issue []).2 = 5 ∧
    ¬ ((OpenaiClient.processIssue "en" c8Oracle c8Issue []).2 ≤ 4) := by
  constructor
  · rfl
  · intro h
    have h5 : (OpenaiClient.processIssue "en" c8Oracle c8Issue []).2 = 5 := rfl
    rw [h5] at h
    exact absurd h (by norm_num)

/-- C8 (amended): the per-issue correction process always terminates, the
bounded loop makes at most 4 attempts (at most `2*fuel` model calls beyond
those already counted), and the total number of model re-invocations for one
finding - loop, similarity backstop and format validation together - is at
most 10, not 4; when the model is uncooperative the process ends in the
deterministic local fallback texts. -/
theorem regeneration_calls_bounded (detectedLang : String)
    (oracle : Nat → Option (String × String)) (issue0 : OpenaiClient.EmailIssue)
    (accepted : List (String × String)) :
    (OpenaiClient.processIssue detectedLang oracle issue0 accepted).2 ≤ 10 ∧
    (∀ (fuel calls : Nat) (issue : OpenaiClient.EmailIssue),
      (OpenaiClient.attemptLoop detectedLang oracle accepted fuel calls issue).2 ≤
        calls + 2 * fuel) :=
  ⟨OpenaiClient.processIssue_calls_le detectedLang oracle issue0 accepted,
   fun fuel calls issue =>
     OpenaiClient.attemptLoop_calls_le detectedLang oracle accepted fuel calls issue⟩
